import Mathlib

/-!
Verification development for the store-bot balance/transaction subsystem.

Shallow embedding of the Python sources:
  - `src/ext/constants.py`   : `Balance`, `MESSAGES`, limits.
  - `src/ext/balance_manager.py` : `BalanceManagerService` (`update_balance`,
    `transfer_balance`, `register_user`, `get_balance`, daily usage/limit).
  - `src/ext/cache_manager.py` : the bulk `ProductManagerService.update_stock_status`.
  - `src/ext/product_manager.py` : `get_product`, `get_available_stock`.
  - `src/ext/trx.py`         : `TransactionManager.process_purchase`.

Modelling conventions, used throughout:
  - Python `int` is `Int`; SQL rows are Lean structures; tables are lists.
  - The system runs on a single cooperative event loop and every lock
    acquisition in a sequential run succeeds, so `acquire_lock` is modelled
    as always succeeding and lock state is not tracked.
  - The `CacheManager` class is code of this repository that is not under
    `src/` (only importers of it are).  Modelled from the spec: section 4.2
    says the cache is advisory and every write path writes the authoritative
    store and refreshes the cache in the same logical operation, so cached
    reads are modelled as reads of the authoritative store.
  - `database.py` is likewise absent; the relational store is modelled as the
    `DB` structure below, with the SQL statements of the sources translated
    statement by statement.
  - Python dictionary lookup `MESSAGES.ERROR[k]` raises `KeyError` when `k`
    is absent; this is modelled by `errResp` / `sucResp` returning a
    `PyResult.exn` for keys missing from the dictionaries, which are
    transcribed verbatim from `constants.py`.
-/

/-- A Python exception escaping a call (only the kinds the embedded code can
actually raise are represented). -/
inductive PyExn where
  | keyError (key : String)
  | attributeError (msg : String)
deriving DecidableEq, Repr

/-- Result of a Python call: a returned value or an uncaught exception. -/
inductive PyResult (α : Type) where
  | ok (a : α)
  | exn (e : PyExn)
deriving DecidableEq, Repr

/-- `MESSAGES.ERROR` from `constants.py`, transcribed verbatim (all 27 keys).
Note the dictionary has no `BALANCE_LOCKED`, `DAILY_LIMIT_EXCEEDED`,
`INVALID_TRANSFER` or `INVALID_LIMIT` entry, although `balance_manager.py`
looks those keys up. -/
def MESSAGES_ERROR : List (String × String) :=
  [ ("INSUFFICIENT_BALANCE", "❌ Balance tidak cukup!"),
    ("OUT_OF_STOCK", "❌ Stock habis!"),
    ("INVALID_AMOUNT", "❌ Jumlah tidak valid!"),
    ("PERMISSION_DENIED", "❌ Anda tidak memiliki izin!"),
    ("INVALID_INPUT", "❌ Input tidak valid!"),
    ("TRANSACTION_FAILED", "❌ Transaksi gagal!"),
    ("REGISTRATION_FAILED", "❌ Registrasi gagal! Silakan coba lagi."),
    ("NOT_REGISTERED", "❌ Anda belum terdaftar! Gunakan tombol Register."),
    ("BALANCE_NOT_FOUND", "❌ Balance tidak ditemukan!"),
    ("BALANCE_FAILED", "❌ Gagal mengambil informasi balance!"),
    ("WORLD_INFO_FAILED", "❌ Gagal mengambil informasi world!"),
    ("NO_HISTORY", "❌ Tidak ada riwayat transaksi!"),
    ("INVALID_GROWID", "❌ GrowID tidak valid!"),
    ("PRODUCT_NOT_FOUND", "❌ Produk tidak ditemukan!"),
    ("INSUFFICIENT_STOCK", "❌ Stock tidak mencukupi!"),
    ("INVALID_PRODUCT_CODE", "❌ Invalid product code format."),
    ("PRODUCT_EXISTS", "❌ Product with this code already exists."),
    ("CACHE_ERROR", "❌ Error accessing cache. Please try again."),
    ("DATABASE_ERROR", "❌ Database error occurred. Please try again."),
    ("LOCK_ACQUISITION_FAILED", "❌ Could not acquire lock. Please try again."),
    ("DISPLAY_ERROR", "❌ Terjadi kesalahan pada display sistem"),
    ("SYNC_ERROR", "❌ Gagal mensinkronkan komponen sistem"),
    ("INITIALIZATION_ERROR", "❌ Gagal menginisialisasi sistem"),
    ("INVALID_GROWID_FORMAT", "❌ Format GrowID tidak valid. Harus diawali huruf dan tidak boleh mengandung karakter khusus"),
    ("GROWID_EXISTS", "❌ GrowID ini sudah terdaftar dengan akun lain"),
    ("RATE_LIMIT", "❌ Mohon tunggu 5 menit sebelum mencoba mendaftar lagi"),
    ("USER_BLACKLISTED", "❌ Akun Anda tidak diizinkan untuk melakukan pendaftaran") ]

/-- `MESSAGES.SUCCESS` from `constants.py`, transcribed verbatim (the
`REGISTRATION` key is written twice in the Python dict literal with the same
value, so it appears once here).  There is no `TRANSFER`, `BALANCE_LOCKED`,
`BALANCE_UNLOCKED` or `LIMIT_UPDATED` entry, although `balance_manager.py`
looks those keys up. -/
def MESSAGES_SUCCESS : List (String × String) :=
  [ ("PURCHASE", "✅ Pembelian berhasil!\nDetail pembelian:"),
    ("STOCK_UPDATE", "✅ Stock berhasil diupdate!"),
    ("DONATION", "✅ Donasi berhasil diterima!"),
    ("BALANCE_UPDATE", "✅ Balance berhasil diupdate!"),
    ("REGISTRATION", "✅ Registrasi berhasil! GrowID: \x7bgrowid\x7d"),
    ("WORLD_UPDATE", "✅ World info berhasil diupdate!"),
    ("PRODUCT_CREATED", "✅ Product created successfully."),
    ("PRODUCT_UPDATED", "✅ Product updated successfully."),
    ("PRODUCT_DELETED", "✅ Product deleted successfully."),
    ("STOCK_SOLD", "✅ Stock sold successfully."),
    ("CACHE_CLEARED", "✅ Cache cleared successfully."),
    ("COG_LOADED", "✅ \x7b\x7d loaded successfully."),
    ("SYNC_SUCCESS", "✅ Components synchronized successfully."),
    ("RECOVERY_SUCCESS", "✅ System recovered successfully.") ]

/-- First value bound to a key in an association list (Python dict lookup /
SQL primary-key lookup; keys are unique in well-formed states, and SQLite
returns the first matching row otherwise). -/
def lookupKey {α : Type} : List (String × α) → String → Option α
  | [], _ => none
  | p :: rest, k => if p.1 = k then some p.2 else lookupKey rest k

/- ### The `Balance` value class (`constants.py`, lines 99-164) -/

/-- `Balance` (`constants.py`): three denomination fields.  The constructor
clamps each field with `max(0, ·)`, which `Balance.init` reproduces; raw
`Balance.mk` is only used where the clamped values are already known. -/
structure Balance where
  wl : Int
  dl : Int
  bgl : Int
deriving DecidableEq, Repr

/-- `Balance.__init__`: each field is clamped with `max(0, ·)`. -/
def Balance.init (wl dl bgl : Int) : Balance :=
  ⟨max 0 wl, max 0 dl, max 0 bgl⟩

/-- `Balance.total_wl`: WL-equivalent total (`wl + dl*100 + bgl*10000`). -/
def Balance.total_wl (b : Balance) : Int :=
  b.wl + b.dl * 100 + b.bgl * 10000

/-- `Balance.MAX_AMOUNT` (1M WLS). -/
def Balance.MAX_AMOUNT : Int := 1000000

/-- `Balance.validate`: `MIN_AMOUNT <= total_wl() <= MAX_AMOUNT` with
`MIN_AMOUNT = 0`. -/
def Balance.validate (b : Balance) : Bool :=
  decide (0 ≤ b.total_wl) && decide (b.total_wl ≤ Balance.MAX_AMOUNT)

/-- `Balance.from_wl`: `bgl = total // 10000`, `dl = (total % 10000) // 100`,
`wl = total % 10000 % 100`, then the clamping constructor. -/
def Balance.from_wl (total : Int) : Balance :=
  Balance.init (total % 10000 % 100) (total % 10000 / 100) (total / 10000)

/- ### Decimal rendering and parsing (`Balance.format` / `Balance.from_string`)

Python renders each field with the format spec `"{x:,}"` (decimal digits with
a comma between each group of three counted from the least significant
digit), and `from_string` splits the whole string on `','` — so the thousands
separators interact with the part separator.  The character-level functions
below reproduce this. -/

/-- The character for a decimal digit (`d < 10` in every use). -/
def dChar : Nat → Char
  | 0 => '0' | 1 => '1' | 2 => '2' | 3 => '3' | 4 => '4'
  | 5 => '5' | 6 => '6' | 7 => '7' | 8 => '8' | 9 => '9'
  | _ => '*'

/-- Little-endian decimal digits of `n`, with explicit fuel so that the
definition is structural (fuel `n` always suffices). -/
def decDigitsAux : Nat → Nat → List Nat
  | _, 0 => []
  | 0, _ + 1 => []
  | f + 1, n + 1 => ((n + 1) % 10) :: decDigitsAux f ((n + 1) / 10)

/-- Big-endian decimal digit characters of `n` (Python `str(n)`). -/
def decChars (n : Nat) : List Char :=
  if n = 0 then ['0'] else ((decDigitsAux n n).map dChar).reverse

/-- Insert `','` after every group of three little-endian digit characters. -/
def withCommas : List Char → List Char
  | a :: b :: c :: d :: rest => a :: b :: c :: ',' :: withCommas (d :: rest)
  | l => l

/-- Python `f"{n:,}"`: decimal digits with thousands separators. -/
def commaChars (n : Nat) : List Char :=
  if n = 0 then ['0'] else (withCommas ((decDigitsAux n n).map dChar)).reverse

/-- `sep.join(parts)` on character lists. -/
def joinSep (sep : List Char) : List (List Char) → List Char
  | [] => []
  | [p] => p
  | p :: rest => p ++ sep ++ joinSep sep rest

/-- `Balance.format` (`constants.py`): append `"{bgl:,} BGL"` when `bgl > 0`,
`"{dl:,} DL"` when `dl > 0`, `"{wl:,} WL"` when `wl > 0` or no part was
produced yet, then join with `", "`. -/
def formatChars (b : Balance) : List Char :=
  let parts1 : List (List Char) :=
    if 0 < b.bgl then [commaChars b.bgl.toNat ++ [' ', 'B', 'G', 'L']] else []
  let parts2 : List (List Char) :=
    parts1 ++ (if 0 < b.dl then [commaChars b.dl.toNat ++ [' ', 'D', 'L']] else [])
  let parts3 : List (List Char) :=
    parts2 ++ (if 0 < b.wl ∨ parts2 = [] then [commaChars b.wl.toNat ++ [' ', 'W', 'L']] else [])
  joinSep [',', ' '] parts3

/-- `Balance.format` as a `String`. -/
def Balance.format (b : Balance) : String :=
  ⟨formatChars b⟩

/-- Python `str.split(',')`. -/
def splitC : List Char → List (List Char)
  | [] => [[]]
  | c :: rest =>
    if c = ',' then [] :: splitC rest
    else
      match splitC rest with
      | [] => [[c]]
      | h :: t => (c :: h) :: t

/-- Python `str.strip()`: drop leading and trailing whitespace. -/
def stripWS (s : List Char) : List Char :=
  ((s.dropWhile Char.isWhitespace).reverse.dropWhile Char.isWhitespace).reverse

/-- Does `s` start with `pat`? (helper for substring tests). -/
def begins : List Char → List Char → Bool
  | [], _ => true
  | _ :: _, [] => false
  | a :: ps, b :: s => a == b && begins ps s

/-- Python `pat in s`: substring occurrence test. -/
def hasSub (pat : List Char) : List Char → Bool
  | [] => begins pat []
  | c :: rest => begins pat (c :: rest) || hasSub pat rest

/-- Python `s.replace(pat, "")`, left-to-right, non-overlapping, with fuel
`s.length` to keep the recursion structural. -/
def removeSubAux : Nat → List Char → List Char → List Char
  | 0, _, s => s
  | _ + 1, _, [] => []
  | f + 1, pat, c :: rest =>
    if pat ≠ [] ∧ begins pat (c :: rest) = true then
      removeSubAux f pat (rest.drop (pat.length - 1))
    else
      c :: removeSubAux f pat rest

/-- Python `s.replace(pat, "")`. -/
def removeSub (pat s : List Char) : List Char :=
  removeSubAux s.length pat s

/-- Numeric value of a decimal digit character. -/
def digitVal (c : Char) : Nat := c.toNat - 48

/-- Value of a big-endian digit-character list. -/
def parseDigits (s : List Char) : Nat :=
  s.foldl (fun a c => a * 10 + digitVal c) 0

/-- Python `int(s)` restricted to the lexical forms the embedded code can
produce: optional sign followed by ASCII digits, surrounded by whitespace;
`none` models the `ValueError` that `from_string` catches. -/
def pyInt (s : List Char) : Option Int :=
  let t := stripWS s
  if t.head? = some '-' then
    if t.tail ≠ [] ∧ t.tail.all Char.isDigit then some (-(parseDigits t.tail : Int)) else none
  else if t.head? = some '+' then
    if t.tail ≠ [] ∧ t.tail.all Char.isDigit then some ((parseDigits t.tail : Int)) else none
  else
    if t ≠ [] ∧ t.all Char.isDigit then some ((parseDigits t : Int)) else none

/-- Accumulator for `Balance.from_string` (the local `wl`, `dl`, `bgl`). -/
structure ParseAcc where
  wl : Int
  dl : Int
  bgl : Int
deriving DecidableEq, Repr

/-- One iteration of the `for part in parts` loop of `Balance.from_string`:
strip the part, test `'WL'`/`'DL'`/`'BGL'` membership in that order, and
assign `int(part.replace(marker, '').strip())` to the matching local;
`none` propagates the `ValueError` of a failed `int`. -/
def procPart (acc : ParseAcc) (part : List Char) : Option ParseAcc :=
  let p := stripWS part
  if hasSub ['W', 'L'] p then
    (pyInt (stripWS (removeSub ['W', 'L'] p))).map (fun v => { acc with wl := v })
  else if hasSub ['D', 'L'] p then
    (pyInt (stripWS (removeSub ['D', 'L'] p))).map (fun v => { acc with dl := v })
  else if hasSub ['B', 'G', 'L'] p then
    (pyInt (stripWS (removeSub ['B', 'G', 'L'] p))).map (fun v => { acc with bgl := v })
  else
    some acc

/-- `Balance.from_string` on characters: empty input or any exception yields
the default `Balance()`, otherwise the three accumulated locals are passed to
the clamping constructor. -/
def fromChars (s : List Char) : Balance :=
  if s = [] then Balance.init 0 0 0
  else
    match (splitC s).foldlM procPart ⟨0, 0, 0⟩ with
    | some acc => Balance.init acc.wl acc.dl acc.bgl
    | none => Balance.init 0 0 0

/-- `Balance.from_string` as a `String` function. -/
def Balance.from_string (s : String) : Balance :=
  fromChars s.data

/- ### The relational store

Tables of the ledger schema used by the embedded operations (`users`,
`user_growid`, `transactions`, `daily_usage`, `products`, `stock`).
Timestamp columns are reduced to a day number (`DATE(created_at)`), which is
all the embedded queries inspect; `db.today` is SQLite's `DATE('now')`. -/

/-- A `users` row (columns read or written by the embedded code). -/
structure UserRow where
  balance_wl : Int
  balance_dl : Int
  balance_bgl : Int
  daily_limit : Int
  is_locked : Bool
deriving DecidableEq, Repr

/-- A `transactions` row. -/
structure TransactionRow where
  growid : String
  ttype : String
  details : String
  old_balance : String
  new_balance : String
  amount_wl : Int
  day : Nat
deriving DecidableEq, Repr

/-- A `daily_usage` row (primary key `(growid, date)`). -/
structure DailyUsageRow where
  growid : String
  day : Nat
  amount : Int
deriving DecidableEq, Repr

/-- A `products` row (columns the embedded operations read). -/
structure ProductRow where
  code : String
  name : String
  price : Int
deriving DecidableEq, Repr

/-- A `stock` row. -/
structure StockRow where
  sid : Nat
  product_code : String
  content : String
  status : String
  buyer_id : Option String
deriving DecidableEq, Repr

/-- The authoritative store.  Lists are in insertion order (`ORDER BY
added_at ASC` coincides with list order for the `stock` table). -/
structure DB where
  users : List (String × UserRow)
  user_growid : List (String × String)
  transactions : List TransactionRow
  daily_usage : List DailyUsageRow
  products : List ProductRow
  stock : List StockRow
  today : Nat
deriving DecidableEq, Repr

/- ### Response values -/

/-- The `data` payload of a `BalanceResponse`. -/
inductive RespData where
  | noData
  | bal (b : Balance)
  | reg (discord_id growid : String)
  | xfer (sender receiver : Balance) (amount : Int)
deriving DecidableEq, Repr

/-- `BalanceResponse` (`balance_manager.py`): success with data and message,
or an error string. -/
inductive BalanceResp where
  | success (data : RespData) (msg : String)
  | error (err : String)
deriving DecidableEq, Repr

/-- `return BalanceResponse.error(MESSAGES.ERROR[k])`: the dictionary lookup
happens first, so a missing key is a `KeyError`, not an error response. -/
def errResp (k : String) : PyResult BalanceResp :=
  match lookupKey MESSAGES_ERROR k with
  | some v => .ok (.error v)
  | none => .exn (.keyError k)

/-- `return BalanceResponse.success(data, MESSAGES.SUCCESS[k])`, with the
same `KeyError` behaviour for missing keys. -/
def sucResp (d : RespData) (k : String) : PyResult BalanceResp :=
  match lookupKey MESSAGES_SUCCESS k with
  | some v => .ok (.success d v)
  | none => .exn (.keyError k)

/- ### `BalanceManagerService` reads (`balance_manager.py`) -/

/-- `is_balance_locked`: `SELECT is_locked FROM users WHERE growid = ?
COLLATE binary`, `False` when the row is absent (cached reads are reads of
the authoritative store, see the header). -/
def is_balance_locked (db : DB) (growid : String) : Bool :=
  match lookupKey db.users growid with
  | some u => u.is_locked
  | none => false

/-- `get_daily_limit`: the row's `daily_limit`, or
`LIMITS.DEFAULT_DAILY_LIMIT` (1,000,000) when no row exists. -/
def get_daily_limit (db : DB) (growid : String) : Int :=
  match lookupKey db.users growid with
  | some u => u.daily_limit
  | none => 1000000

/-- `get_daily_usage`: `SELECT COALESCE(SUM(ABS(amount_wl)), 0) FROM
transactions WHERE growid = ? AND type NOT IN (admin_add, transfer_rollback)
AND DATE(created_at) = DATE('now')`. -/
def get_daily_usage (db : DB) (growid : String) : Int :=
  ((db.transactions.filter (fun t =>
      t.growid == growid && t.ttype != "admin_add" &&
      t.ttype != "transfer_rollback" && t.day == db.today)).map
    (fun t => |t.amount_wl|)).sum

/-- `get_balance`: the locked check raises `KeyError('BALANCE_LOCKED')`
(missing message key); otherwise the row, clamped through the `Balance`
constructor, or `BALANCE_NOT_FOUND`. -/
def get_balance (db : DB) (growid : String) : PyResult BalanceResp :=
  if is_balance_locked db growid then errResp "BALANCE_LOCKED"
  else
    match lookupKey db.users growid with
    | some u => .ok (.success (.bal (Balance.init u.balance_wl u.balance_dl u.balance_bgl)) "")
    | none => errResp "BALANCE_NOT_FOUND"

/- ### `update_balance` (`balance_manager.py`, lines 375-527) -/

/-- The signed WL-equivalent of a delta (`wl + dl*100 + bgl*10000`). -/
def amountOf (wl dl bgl : Int) : Int := wl + dl * 100 + bgl * 10000

/-- `INSERT INTO daily_usage ... ON CONFLICT(growid, date) DO UPDATE SET
amount = amount + excluded.amount` of `_update_daily_usage`. -/
def upsertDaily : List DailyUsageRow → String → Nat → Int → List DailyUsageRow
  | [], g, d, a => [⟨g, d, a⟩]
  | r :: rest, g, d, a =>
    if r.growid = g ∧ r.day = d then { r with amount := r.amount + a } :: rest
    else r :: upsertDaily rest g d a

/-- The committed storage transaction of `update_balance`: `UPDATE users SET
balance_* WHERE growid = ?`, `INSERT INTO transactions ...`, and (for
non-`admin_add` types) the `daily_usage` upsert. -/
def writeBalance (db : DB) (growid : String) (nw nd ng : Int)
    (row : TransactionRow) (nonAdmin : Bool) : DB :=
  { db with
    users := db.users.map (fun p =>
      if p.1 = growid then
        (p.1, { p.2 with balance_wl := nw, balance_dl := nd, balance_bgl := ng })
      else p),
    transactions := db.transactions ++ [row],
    daily_usage :=
      if nonAdmin then upsertDaily db.daily_usage growid db.today |row.amount_wl|
      else db.daily_usage }

/-- `update_balance`.  Checks in source order: locked (missing message key →
`KeyError`); daily limit for non-`admin_add` types (missing message key →
`KeyError`); `get_balance`; clamped candidate; `Balance.validate`
(`INVALID_AMOUNT`); per-denomination insufficiency (`INSUFFICIENT_BALANCE`);
then the committed write.  The suspicious-activity heuristic only fires a
notification callback and never changes the outcome, so it is not modelled.
Exceptions raised after the lock acquisition would be mapped to
`TRANSACTION_FAILED` by the surrounding handlers, which the `get_balance`
exception arm reflects; the two checks before the `try` block propagate their
`KeyError`. -/
def update_balance (db : DB) (growid : String) (wl dl bgl : Int)
    (details ty : String) : PyResult BalanceResp × DB :=
  if is_balance_locked db growid then (errResp "BALANCE_LOCKED", db)
  else if ty ≠ "admin_add" ∧
      get_daily_limit db growid <
        get_daily_usage db growid + |amountOf wl dl bgl| then
    (errResp "DAILY_LIMIT_EXCEEDED", db)
  else
    match get_balance db growid with
    | .exn _ => (errResp "TRANSACTION_FAILED", db)
    | .ok (.error e) => (.ok (.error e), db)
    | .ok (.success d _) =>
      match d with
      | .bal cur =>
        let nw := max 0 (cur.wl + wl)
        let nd := max 0 (cur.dl + dl)
        let ng := max 0 (cur.bgl + bgl)
        let newB := Balance.init nw nd ng
        if newB.validate = false then (errResp "INVALID_AMOUNT", db)
        else if wl < 0 ∧ cur.wl < |wl| then (errResp "INSUFFICIENT_BALANCE", db)
        else if dl < 0 ∧ cur.dl < |dl| then (errResp "INSUFFICIENT_BALANCE", db)
        else if bgl < 0 ∧ cur.bgl < |bgl| then (errResp "INSUFFICIENT_BALANCE", db)
        else
          (sucResp (.bal newB) "BALANCE_UPDATE",
           writeBalance db growid nw nd ng
             ⟨growid, ty, details, cur.format, newB.format, amountOf wl dl bgl, db.today⟩
             (ty ≠ "admin_add"))
      | _ => (errResp "TRANSACTION_FAILED", db)

/- ### `transfer_balance` (`balance_manager.py`, lines 529-604) -/

/-- `transfer_balance`: self-transfer and locked checks look up message keys
that are absent (`KeyError`); sender debit (`transfer_out`), receiver credit
(`transfer_in`), best-effort compensating credit (`transfer_rollback`) whose
result is ignored; the success branch looks up the absent
`MESSAGES.SUCCESS['TRANSFER']` key after both updates committed, so a fully
successful transfer also ends in a `KeyError`. -/
def transfer_balance (db : DB) (sender receiver : String) (amount : Int) :
    PyResult BalanceResp × DB :=
  if sender = receiver then (errResp "INVALID_TRANSFER", db)
  else if amount ≤ 0 then (errResp "INVALID_AMOUNT", db)
  else if is_balance_locked db sender then (errResp "BALANCE_LOCKED", db)
  else if is_balance_locked db receiver then (errResp "BALANCE_LOCKED", db)
  else
    match update_balance db sender (-amount) 0 0
        ("Transfer to " ++ receiver) "transfer_out" with
    | (.exn e, db1) => (.exn e, db1)
    | (.ok (.error e), db1) => (.ok (.error e), db1)
    | (.ok (.success d1 _), db1) =>
      match update_balance db1 receiver amount 0 0
          ("Transfer from " ++ sender) "transfer_in" with
      | (.exn e, db2) => (.exn e, db2)
      | (.ok (.error e), db2) =>
        match update_balance db2 sender amount 0 0
            ("Rollback transfer to " ++ receiver) "transfer_rollback" with
        | (.exn e2, db3) => (.exn e2, db3)
        | (_, db3) => (.ok (.error e), db3)
      | (.ok (.success d2 _), db2) =>
        (sucResp (.xfer (match d1 with | .bal b => b | _ => Balance.init 0 0 0)
                        (match d2 with | .bal b => b | _ => Balance.init 0 0 0)
                        amount) "TRANSFER",
         db2)

/- ### `register_user` (`balance_manager.py`, lines 233-313) -/

/-- Python `str.lower()` / SQL `LOWER` (character-wise, which agrees with
both on the ASCII identifiers the system stores). -/
def strLower (s : String) : String :=
  ⟨s.data.map Char.toLower⟩

/-- The existing-GrowID probe: `SELECT growid FROM users WHERE LOWER(growid)
= LOWER(?)` — first row whose spelling matches case-insensitively.  Note it
reads the `users` table only; the `user_growid` binding table is never
consulted. -/
def findGrowidCI : List (String × UserRow) → String → Option String
  | [], _ => none
  | p :: rest, g => if strLower p.1 = strLower g then some p.1 else findGrowidCI rest g

/-- `INSERT OR IGNORE INTO users (growid, 0, 0, 0, daily_limit, FALSE)`. -/
def insertOrIgnoreUser (users : List (String × UserRow)) (growid : String) :
    List (String × UserRow) :=
  if (lookupKey users growid).isSome then users
  else users ++ [(growid, ⟨0, 0, 0, 1000000, false⟩)]

/-- `INSERT OR REPLACE INTO user_growid (discord_id, growid)`. -/
def insertOrReplaceGrowid (l : List (String × String)) (discord_id growid : String) :
    List (String × String) :=
  if (lookupKey l discord_id).isSome then
    l.map (fun p => if p.1 = discord_id then (discord_id, growid) else p)
  else l ++ [(discord_id, growid)]

/-- Replace every occurrence of `pat` (left to right, non-overlapping) by
`repl`, with fuel to keep the recursion structural. -/
def replaceSubAux : Nat → List Char → List Char → List Char → List Char
  | 0, _, _, s => s
  | _ + 1, _, _, [] => []
  | f + 1, pat, repl, c :: rest =>
    if pat ≠ [] ∧ begins pat (c :: rest) = true then
      repl ++ replaceSubAux f pat repl (rest.drop (pat.length - 1))
    else
      c :: replaceSubAux f pat repl rest

/-- `MESSAGES.SUCCESS['REGISTRATION'].format(growid=growid)`: substitute the
`growid` placeholder field of the template. -/
def formatGrowidMsg (template growid : String) : String :=
  ⟨replaceSubAux template.data.length
    ['\x7b', 'g', 'r', 'o', 'w', 'i', 'd', '\x7d'] growid.data template.data⟩

/-- `register_user`: length validation; the case-insensitive existing-GrowID
probe rejects with `GROWID_EXISTS` only when the stored spelling differs from
the requested one; otherwise upsert the `users` row and overwrite the
`user_growid` binding of `discord_id`. -/
def register_user (db : DB) (discord_id growid : String) :
    PyResult BalanceResp × DB :=
  if growid = "" ∨ growid.length < 3 then (errResp "INVALID_GROWID", db)
  else
    match findGrowidCI db.users growid with
    | some g0 =>
      if g0 ≠ growid then (errResp "GROWID_EXISTS", db)
      else registerCommit db discord_id growid
    | none => registerCommit db discord_id growid
where
  /-- The committed insert/replace pair and the success response. -/
  registerCommit (db : DB) (discord_id growid : String) :
      PyResult BalanceResp × DB :=
    (match lookupKey MESSAGES_SUCCESS "REGISTRATION" with
     | some v => .ok (.success (.reg discord_id growid) (formatGrowidMsg v growid))
     | none => .exn (.keyError "REGISTRATION"),
     { db with
       users := insertOrIgnoreUser db.users growid,
       user_growid := insertOrReplaceGrowid db.user_growid discord_id growid })

/- ### Bulk stock update (`cache_manager.py`, lines 449-512) -/

/-- `ProductManagerResponse` restricted to the payloads the embedded
operations produce. -/
inductive PMResp where
  | success (updated_count : Nat)
  | error (err : String)
deriving DecidableEq, Repr

/-- The `WHERE` clause of the bulk update: `id IN (stock_ids) AND
product_code = ? AND status = 'available'`. -/
def stockMatch (product_code : String) (stock_ids : List Nat) (row : StockRow) : Bool :=
  stock_ids.contains row.sid && row.product_code == product_code &&
    row.status == "available"

/-- The bulk `update_stock_status` of `cache_manager.py`: under the
`stock_update_<product_code>` lock, one conditional `UPDATE` setting
`status` and `buyer_id` on the rows matching `stockMatch`; if
`cursor.rowcount` differs from `len(stock_ids)` the transaction is rolled
back and an error is returned, otherwise it commits. -/
def update_stock_status (db : DB) (product_code : String) (stock_ids : List Nat)
    (new_status : String) (buyer_id : Option String) : PMResp × DB :=
  if stock_ids = [] then (.error "No stock IDs provided", db)
  else
    let rowcount := (db.stock.filter (stockMatch product_code stock_ids)).length
    if rowcount ≠ stock_ids.length then
      (.error "Failed to update all stock items", db)
    else
      (.success rowcount,
       { db with stock := db.stock.map (fun row =>
           if stockMatch product_code stock_ids row then
             { row with status := new_status, buyer_id := buyer_id }
           else row) })

/- ### `process_purchase` (`trx.py`, lines 354-521) -/

/-- `get_product` of `product_manager.py` (the service `trx.py` imports):
`SELECT * FROM products WHERE code = ? COLLATE NOCASE`, first match. -/
def findProductCI : List ProductRow → String → Option ProductRow
  | [], _ => none
  | p :: rest, code =>
    if strLower p.code = strLower code then some p else findProductCI rest code

/-- `get_available_stock` of `product_manager.py`: the available rows of the
product in `added_at` order (list order), limited to `quantity`.  The
response is a success even when the list is empty. -/
def availableStock (db : DB) (product_code : String) (quantity : Nat) : List StockRow :=
  (db.stock.filter (fun r => r.product_code == product_code && r.status == "available")).take
    quantity

/-- `TransactionResponse` restricted to the payloads `process_purchase` can
produce.  The success constructor is never reachable: see
`process_purchase`. -/
inductive TrxResp where
  | success (content : List String) (msg : String)
  | error (err : String)
deriving DecidableEq, Repr

/-- `process_purchase`.  Validation, GrowID resolution, product lookup,
stock fetch and the defence-in-depth balance check follow `trx.py`
faithfully; then line 423 calls `self.balance_manager.check_daily_limit`,
a method `BalanceManagerService` does not define, so Python raises
`AttributeError` there.  It is re-raised by the inner handler and converted
by the outer `except Exception` into
`TransactionResponse.error(MESSAGES.ERROR['TRANSACTION_FAILED'])`, before
any stock or balance mutation — so control never reaches the stock update,
the debit, or the success response. -/
def process_purchase (db : DB) (user_id product_code : String) (quantity : Int) :
    TrxResp × DB :=
  if ¬(user_id.data ≠ [] ∧ user_id.data.all Char.isDigit) then
    (.error "Invalid user ID", db)
  else if ¬(product_code ≠ "" ∧ 3 ≤ product_code.length) then
    (.error "Invalid product code", db)
  else if quantity ≤ 0 ∨ 999 < quantity then
    (.error "Invalid quantity (must be between 1-999)", db)
  else
    match lookupKey db.user_growid user_id with
    | none => (.error "❌ Anda belum terdaftar! Gunakan tombol Register.", db)
    | some growid =>
      match findProductCI db.products product_code with
      | none => (.error "❌ Produk tidak ditemukan!", db)
      | some product =>
        let total_price := product.price * quantity
        match get_balance db growid with
        | .exn _ => (.error "❌ Transaksi gagal!", db)
        | .ok (.error e) => (.error e, db)
        | .ok (.success d _) =>
          match d with
          | .bal cur =>
            if cur.total_wl < total_price then
              (.error "❌ Balance tidak cukup!", db)
            else
              (.error "❌ Transaksi gagal!", db)
          | _ => (.error "❌ Transaksi gagal!", db)

/- ### Sequences of `update_balance` calls (for the non-negativity claim) -/

/-- The arguments of one `update_balance` invocation. -/
structure UpdateCall where
  growid : String
  wl : Int
  dl : Int
  bgl : Int
  details : String
  ty : String
deriving DecidableEq, Repr

/-- Run a sequence of `update_balance` calls, keeping the store each call
leaves behind (responses are discarded). -/
def applyCalls (db : DB) : List UpdateCall → DB
  | [] => db
  | c :: cs => applyCalls (update_balance db c.growid c.wl c.dl c.bgl c.details c.ty).2 cs

/-- All three stored denomination fields of every `users` row are
non-negative. -/
def nonNegUsers (db : DB) : Bool :=
  db.users.all (fun p =>
    decide (0 ≤ p.2.balance_wl) && decide (0 ≤ p.2.balance_dl) &&
      decide (0 ≤ p.2.balance_bgl))

/- ### Statement-side abbreviations -/

/-- The current balance as `update_balance` sees it: the stored row passed
through the clamping `Balance` constructor. -/
def clampedCur (u : UserRow) : Balance :=
  Balance.init u.balance_wl u.balance_dl u.balance_bgl

/-- The clamped candidate balance `update_balance` computes:
`max(0, current + delta)` per denomination, passed through the constructor. -/
def candBalance (u : UserRow) (wl dl bgl : Int) : Balance :=
  Balance.init (max 0 ((clampedCur u).wl + wl)) (max 0 ((clampedCur u).dl + dl))
    (max 0 ((clampedCur u).bgl + bgl))

/-- Number of `transfer_rollback` transaction rows for a growid. -/
def rollbackCount (db : DB) (growid : String) : Nat :=
  (db.transactions.filter (fun t =>
    t.growid == growid && t.ttype == "transfer_rollback")).length

/-- Is a `ProductManagerResponse` a success? -/
def PMResp.isSuccess : PMResp → Bool
  | .success _ => true
  | .error _ => false

/-- What the stock-update claim asserts of one `update_stock_status` call:
failure leaves the store untouched; success means the matched row count
equalled the requested id count, every requested id named a distinct
previously-available row of the product which now carries the new status and
buyer, and every non-matching row is untouched. -/
def stockUpdateSpec (db : DB) (product_code : String) (stock_ids : List Nat)
    (new_status : String) (buyer_id : Option String) : Prop :=
  let out := update_stock_status db product_code stock_ids new_status buyer_id
  (out.1.isSuccess = false → out.2 = db) ∧
  (out.1.isSuccess = true →
    (db.stock.filter (stockMatch product_code stock_ids)).length = stock_ids.length ∧
    (∀ s ∈ stock_ids, ∃ row ∈ db.stock, row.sid = s ∧ row.product_code = product_code ∧
        row.status = "available" ∧
        { row with status := new_status, buyer_id := buyer_id } ∈ out.2.stock) ∧
    (∀ row ∈ db.stock, stockMatch product_code stock_ids row = false → row ∈ out.2.stock))

/- ### Concrete scenario stores -/

/-- Purchase happy-path scenario: `ALICE` holds exactly 2000 WL, product
`SWORD` costs 500 WL and has three available stock items, discord account
`123` is bound to `ALICE`. -/
def dbPurchase : DB :=
  ⟨[("ALICE", ⟨2000, 0, 0, 1000000, false⟩)], [("123", "ALICE")], [], [],
   [⟨"SWORD", "Sword", 500⟩],
   [⟨1, "SWORD", "code1", "available", none⟩,
    ⟨2, "SWORD", "code2", "available", none⟩,
    ⟨3, "SWORD", "code3", "available", none⟩], 0⟩

/-- Insufficiency scenario: `A` holds 3 WL and 1 DL. -/
def dbIns : DB := ⟨[("A", ⟨3, 1, 0, 1000000, false⟩)], [], [], [], [], [], 0⟩

/-- Daily-limit scenario: `BOB` holds 100 WL with the default 1,000,000 WL
daily limit and one prior same-day non-admin transaction of 999,999 WL. -/
def dbDaily : DB :=
  ⟨[("BOB", ⟨100, 0, 0, 1000000, false⟩)], [],
   [⟨"BOB", "purchase", "bulk buy", "", "", -999999, 0⟩], [], [], [], 0⟩

/-- Registration scenario: growid `ALICE` exists and is bound to discord
account `1`. -/
def dbReg : DB :=
  ⟨[("ALICE", ⟨0, 0, 0, 1000000, false⟩)], [("1", "ALICE")], [], [], [], [], 0⟩

/-- Transfer-compensation counterexample scenario: sender `S` holds 600,000
WL, receiver `R` holds 500,000 WL, both with the default daily limit. -/
def dbXfer : DB :=
  ⟨[("S", ⟨600000, 0, 0, 1000000, false⟩), ("R", ⟨500000, 0, 0, 1000000, false⟩)],
   [], [], [], [], [], 0⟩

/-- Transfer-compensation witness scenario: sender `S` holds 100 WL and the
receiver `R` is not registered, so the credit fails with
`BALANCE_NOT_FOUND`. -/
def dbXferW : DB := ⟨[("S", ⟨100, 0, 0, 1000000, false⟩)], [], [], [], [], [], 0⟩

/-- Ceiling counterexample scenario: `A` is registered with a zero balance. -/
def dbZero : DB := ⟨[("A", ⟨0, 0, 0, 1000000, false⟩)], [], [], [], [], [], 0⟩

/-- Store after the sender debit in the transfer-compensation witness run. -/
def dbXferW1 : DB :=
  (update_balance dbXferW "S" (-50) 0 0 ("Transfer to " ++ "R") "transfer_out").2

/-- Store after the compensating rollback credit in the transfer-compensation
witness run. -/
def dbXferW3 : DB :=
  (update_balance dbXferW1 "S" 50 0 0 ("Rollback transfer to " ++ "R") "transfer_rollback").2

/- ### Claim theorems -/

/-- C10: for every integer `n ≥ 0`, `Balance.from_wl(n).total_wl() = n`, and
the decomposition is canonical: the resulting `wl` and `dl` fields are both
below 100. -/
theorem from_wl_roundtrip_canonical (n : Int) (hn : 0 ≤ n) :
    (Balance.from_wl n).total_wl = n ∧
    (Balance.from_wl n).wl < 100 ∧ (Balance.from_wl n).dl < 100 := by
  unfold Balance.from_wl Balance.init Balance.total_wl
  refine ⟨?_, ?_, ?_⟩ <;> simp only <;> omega

/-- Witness for C10 at `n = 1234567`. -/
theorem from_wl_roundtrip_canonical_witness :
    (0 : Int) ≤ 1234567 ∧
    ((Balance.from_wl 1234567).total_wl = 1234567 ∧
     (Balance.from_wl 1234567).wl < 100 ∧ (Balance.from_wl 1234567).dl < 100) :=
  ⟨by decide, from_wl_roundtrip_canonical 1234567 (by decide)⟩

/-- C1 (code bug): in the spec's happy-path scenario (user `ALICE` with 2000
WL bound to account `123`, product `SWORD` at 500 WL with three available
stock items), `process_purchase("123", "SWORD", 2)` does not succeed: the
call to the non-existent `check_daily_limit` method raises `AttributeError`,
so the result is the generic `TRANSACTION_FAILED` error and the store is
completely unchanged (balance still 2000 WL, three stock items still
available, no `purchase` transaction row). -/
theorem purchase_scenario_fails_with_transaction_failed :
    (process_purchase dbPurchase "123" "SWORD" 2).1 = .error "❌ Transaksi gagal!" ∧
    (process_purchase dbPurchase "123" "SWORD" 2).2 = dbPurchase ∧
    lookupKey dbPurchase.users "ALICE" = some ⟨2000, 0, 0, 1000000, false⟩ ∧
    (availableStock dbPurchase "SWORD" 999).length = 3 ∧
    (dbPurchase.transactions.filter (fun t => t.ttype == "purchase")).length = 0 := by
  decide

/-- C6 (code bug): with 999,999 WL of same-day non-admin usage and the
1,000,000 WL default limit, a further 2 WL non-admin debit does make no
state change, but instead of returning a `DailyLimitExceeded` error the call
raises `KeyError('DAILY_LIMIT_EXCEEDED')` (the key is absent from
`MESSAGES.ERROR`); a debit landing exactly on the limit is allowed and
succeeds. -/
theorem daily_limit_keyerror_scenario :
    update_balance dbDaily "BOB" (-2) 0 0 "withdraw" "withdrawal" =
      (.exn (.keyError "DAILY_LIMIT_EXCEEDED"), dbDaily) ∧
    (update_balance dbDaily "BOB" (-1) 0 0 "withdraw" "withdrawal").1 =
      .ok (.success (.bal ⟨99, 0, 0⟩) "✅ Balance berhasil diupdate!") := by
  decide

/-- C7 (code bug): growid `ALICE` is bound to external account `1`, yet
`register_user("2", "ALICE")` succeeds and binds account `2` to the same
growid (both bindings coexist afterwards), while `register_user("1",
"alice")` — the same account re-registering its own growid in different
case — is rejected with the GrowID-exists error. -/
theorem register_user_rebinds_bound_growid :
    (register_user dbReg "2" "ALICE").1 =
      .ok (.success (.reg "2" "ALICE") "✅ Registrasi berhasil! GrowID: ALICE") ∧
    lookupKey (register_user dbReg "2" "ALICE").2.user_growid "1" = some "ALICE" ∧
    lookupKey (register_user dbReg "2" "ALICE").2.user_growid "2" = some "ALICE" ∧
    (register_user dbReg "1" "alice").1 =
      .ok (.error "❌ GrowID ini sudah terdaftar dengan akun lain") := by
  decide

/-- Counterexample to C2 as stated: `A` holds `(wl, dl, bgl) = (3, 1, 0)`;
the call `update_balance("A", wl := -5, dl := 10000)` has a negative `wl`
delta whose absolute value exceeds the current `wl`, yet it returns
`INVALID_AMOUNT` (the `MAX_AMOUNT` validation fires first on the clamped
candidate of 1,000,100 WL), not `INSUFFICIENT_BALANCE`. -/
theorem insufficiency_claim_cex :
    update_balance dbIns "A" (-5) 10000 0 "d" "deposit" =
      (.ok (.error "❌ Jumlah tidak valid!"), dbIns) ∧
    "❌ Jumlah tidak valid!" ≠ "❌ Balance tidak cukup!" := by
  decide

/-- Counterexample to C9 as stated: on a zero balance with the default
daily limit, a non-admin deposit of 2,000,000 WL has a clamped candidate
total of 2,000,000 > 1,000,000, but the call raises
`KeyError('DAILY_LIMIT_EXCEEDED')` in the earlier daily-limit check instead
of returning the invalid-amount error. -/
theorem balance_ceiling_cex :
    update_balance dbZero "A" 2000000 0 0 "d" "deposit" =
      (.exn (.keyError "DAILY_LIMIT_EXCEEDED"), dbZero) := by
  decide

/-- Counterexample to C4 as stated: sender `S` (600,000 WL) transfers
600,000 WL to `R` (500,000 WL).  The debit succeeds, the credit fails with
`INVALID_AMOUNT` (receiver would exceed `MAX_AMOUNT`), and the compensating
`transfer_rollback` credit then fails its own daily-limit check — raising
`KeyError('DAILY_LIMIT_EXCEEDED')` out of `transfer_balance`.  The sender is
left debited at 0 WL, no `transfer_rollback` row exists, and no
receiver-side error is returned. -/
theorem transfer_compensation_cex :
    (transfer_balance dbXfer "S" "R" 600000).1 = .exn (.keyError "DAILY_LIMIT_EXCEEDED") ∧
    lookupKey (transfer_balance dbXfer "S" "R" 600000).2.users "S" =
      some ⟨0, 0, 0, 1000000, false⟩ ∧
    rollbackCount (transfer_balance dbXfer "S" "R" 600000).2 "S" = 0 := by
  decide

/-- Counterexample to C8 as stated: `Balance(1234, 0, 0)` formats to
`"1,234 WL"`; splitting on `','` in `from_string` severs the thousands
separator, so the round trip yields 234 WL, not 1234 WL. -/
theorem balance_roundtrip_cex :
    (Balance.from_string (Balance.init 1234 0 0).format).total_wl ≠
      (Balance.init 1234 0 0).total_wl := by
  decide

/- Helper lemmas (shared) -/

lemma errResp_insufficient :
    errResp "INSUFFICIENT_BALANCE" = .ok (.error "❌ Balance tidak cukup!") := rfl

lemma errResp_invalid :
    errResp "INVALID_AMOUNT" = .ok (.error "❌ Jumlah tidak valid!") := rfl

lemma candBalance_nonneg_total (u : UserRow) (wl dl bgl : Int) :
    0 ≤ (candBalance u wl dl bgl).total_wl := by
  unfold candBalance clampedCur Balance.init Balance.total_wl
  simp only
  positivity

/-- C2 (amended): an `update_balance` call on a registered, unlocked account
that passes the earlier daily-limit check, whose clamped candidate balance
passes the `MAX_AMOUNT` validation, and in which some denomination delta is
negative with absolute value exceeding that same denomination's current
value — each denomination checked only against itself — returns the
`InsufficientBalance` error and leaves the store unchanged. -/
theorem update_balance_insufficient_denomination (db : DB) (g : String)
    (wl dl bgl : Int) (details ty : String) (u : UserRow)
    (hu : lookupKey db.users g = some u)
    (hlock : u.is_locked = false)
    (hdaily : ty = "admin_add" ∨
      get_daily_usage db g + |amountOf wl dl bgl| ≤ get_daily_limit db g)
    (hmax : (candBalance u wl dl bgl).total_wl ≤ 1000000)
    (hins : (wl < 0 ∧ (clampedCur u).wl < |wl|) ∨ (dl < 0 ∧ (clampedCur u).dl < |dl|) ∨
      (bgl < 0 ∧ (clampedCur u).bgl < |bgl|)) :
    update_balance db g wl dl bgl details ty =
      (.ok (.error "❌ Balance tidak cukup!"), db) := by
  have hlocked : is_balance_locked db g = false := by
    unfold is_balance_locked; rw [hu]; exact hlock
  have hdaily2 : ¬(ty ≠ "admin_add" ∧
      get_daily_limit db g < get_daily_usage db g + |amountOf wl dl bgl|) := by
    rcases hdaily with h | h
    · exact fun hc => hc.1 h
    · exact fun hc => absurd h (not_le.mpr hc.2)
  have hgb : get_balance db g = .ok (.success (.bal (clampedCur u)) "") := by
    unfold get_balance; rw [hlocked, hu]; rfl
  have hval : (candBalance u wl dl bgl).validate = true := by
    unfold Balance.validate
    simp only [Bool.and_eq_true, decide_eq_true_eq]
    exact ⟨candBalance_nonneg_total u wl dl bgl, hmax⟩
  unfold update_balance
  rw [hlocked, if_neg (by simp), if_neg hdaily2, hgb]
  simp only
  rw [show (Balance.init (max 0 ((clampedCur u).wl + wl)) (max 0 ((clampedCur u).dl + dl))
      (max 0 ((clampedCur u).bgl + bgl))) = candBalance u wl dl bgl from rfl]
  rw [hval]
  simp only [Bool.true_eq_false, if_false]
  rcases hins with h | h | h
  · rw [if_pos h, errResp_insufficient]
  · by_cases h1 : wl < 0 ∧ (clampedCur u).wl < |wl|
    · rw [if_pos h1, errResp_insufficient]
    · rw [if_neg h1, if_pos h, errResp_insufficient]
  · by_cases h1 : wl < 0 ∧ (clampedCur u).wl < |wl|
    · rw [if_pos h1, errResp_insufficient]
    · by_cases h2 : dl < 0 ∧ (clampedCur u).dl < |dl|
      · rw [if_neg h1, if_pos h2, errResp_insufficient]
      · rw [if_neg h1, if_neg h2, if_pos h, errResp_insufficient]

/-- Witness for C2 (amended): `A` holds `(3, 1, 0)` and a pure `wl := -5`
debit is rejected with `InsufficientBalance`, store unchanged. -/
theorem update_balance_insufficient_denomination_witness :
    (lookupKey dbIns.users "A" = some ⟨3, 1, 0, 1000000, false⟩ ∧
     (⟨3, 1, 0, 1000000, false⟩ : UserRow).is_locked = false ∧
     ("deposit" = "admin_add" ∨
       get_daily_usage dbIns "A" + |amountOf (-5) 0 0| ≤ get_daily_limit dbIns "A") ∧
     (candBalance ⟨3, 1, 0, 1000000, false⟩ (-5) 0 0).total_wl ≤ 1000000 ∧
     ((-5 : Int) < 0 ∧ (clampedCur ⟨3, 1, 0, 1000000, false⟩).wl < |(-5 : Int)|)) ∧
    update_balance dbIns "A" (-5) 0 0 "d" "deposit" =
      (.ok (.error "❌ Balance tidak cukup!"), dbIns) :=
  ⟨⟨by decide, by decide, by decide, by decide, by decide⟩,
   update_balance_insufficient_denomination dbIns "A" (-5) 0 0 "d" "deposit"
     ⟨3, 1, 0, 1000000, false⟩ (by decide) (by decide) (by decide) (by decide)
     (Or.inl (by decide))⟩

/-- C9 (amended): an `update_balance` call on a registered, unlocked account
that passes the earlier daily-limit check (`admin_add`, or within the limit)
and whose clamped candidate balance has a WL-equivalent total strictly above
`Balance.MAX_AMOUNT` (1,000,000) returns the invalid-amount error and leaves
the store unchanged. -/
theorem update_balance_ceiling_invalid_amount (db : DB) (g : String)
    (wl dl bgl : Int) (details ty : String) (u : UserRow)
    (hu : lookupKey db.users g = some u)
    (hlock : u.is_locked = false)
    (hdaily : ty = "admin_add" ∨
      get_daily_usage db g + |amountOf wl dl bgl| ≤ get_daily_limit db g)
    (hover : 1000000 < (candBalance u wl dl bgl).total_wl) :
    update_balance db g wl dl bgl details ty =
      (.ok (.error "❌ Jumlah tidak valid!"), db) := by
  have hlocked : is_balance_locked db g = false := by
    unfold is_balance_locked; rw [hu]; exact hlock
  have hdaily2 : ¬(ty ≠ "admin_add" ∧
      get_daily_limit db g < get_daily_usage db g + |amountOf wl dl bgl|) := by
    rcases hdaily with h | h
    · exact fun hc => hc.1 h
    · exact fun hc => absurd h (not_le.mpr hc.2)
  have hgb : get_balance db g = .ok (.success (.bal (clampedCur u)) "") := by
    unfold get_balance; rw [hlocked, hu]; rfl
  have hval : (candBalance u wl dl bgl).validate = false := by
    unfold Balance.validate
    simp only [Bool.and_eq_false_iff, decide_eq_false_iff_not, not_le]
    right; rw [Balance.MAX_AMOUNT]; exact hover
  unfold update_balance
  rw [hlocked, if_neg (by simp), if_neg hdaily2, hgb]
  simp only
  rw [show (Balance.init (max 0 ((clampedCur u).wl + wl)) (max 0 ((clampedCur u).dl + dl))
      (max 0 ((clampedCur u).bgl + bgl))) = candBalance u wl dl bgl from rfl]
  rw [hval, if_pos rfl, errResp_invalid]

/-- Witness for C9 (amended): an `admin_add` credit of 2,000,000 WL onto a
zero balance fails with the invalid-amount error, store unchanged. -/
theorem update_balance_ceiling_invalid_amount_witness :
    (lookupKey dbZero.users "A" = some ⟨0, 0, 0, 1000000, false⟩ ∧
     ("admin_add" = "admin_add" ∨
       get_daily_usage dbZero "A" + |amountOf 2000000 0 0| ≤ get_daily_limit dbZero "A") ∧
     1000000 < (candBalance ⟨0, 0, 0, 1000000, false⟩ 2000000 0 0).total_wl) ∧
    update_balance dbZero "A" 2000000 0 0 "d" "admin_add" =
      (.ok (.error "❌ Jumlah tidak valid!"), dbZero) :=
  ⟨⟨by decide, by decide, by decide⟩,
   update_balance_ceiling_invalid_amount dbZero "A" 2000000 0 0 "d" "admin_add"
     ⟨0, 0, 0, 1000000, false⟩ (by decide) (by decide) (Or.inl (by decide)) (by decide)⟩

/-- Every `update_balance` call either leaves the store unchanged or commits
`writeBalance` with per-denomination values of the form `max 0 _`. -/
lemma update_balance_state_cases (db : DB) (g : String) (wl dl bgl : Int) (d ty : String) :
    (update_balance db g wl dl bgl d ty).2 = db ∨
    ∃ nw nd ng row na, 0 ≤ nw ∧ 0 ≤ nd ∧ 0 ≤ ng ∧
      (update_balance db g wl dl bgl d ty).2 = writeBalance db g nw nd ng row na := by
  unfold update_balance
  simp only
  repeat' first
    | (left; rfl)
    | (right; exact ⟨_, _, _, _, _, le_max_left _ _, le_max_left _ _, le_max_left _ _, rfl⟩)
    | split

lemma nonNegUsers_writeBalance (db : DB) (g : String) (nw nd ng : Int)
    (row : TransactionRow) (na : Bool)
    (h : nonNegUsers db = true) (hw : 0 ≤ nw) (hd : 0 ≤ nd) (hg : 0 ≤ ng) :
    nonNegUsers (writeBalance db g nw nd ng row na) = true := by
  unfold nonNegUsers at h ⊢
  unfold writeBalance
  simp only [List.all_eq_true, List.mem_map] at h ⊢
  rintro p ⟨q, hq, rfl⟩
  by_cases hqg : q.1 = g
  · simp only [hqg, if_pos rfl, Bool.and_eq_true, decide_eq_true_eq]
    exact ⟨⟨hw, hd⟩, hg⟩
  · simp only [if_neg hqg]
    exact h q hq

lemma nonNeg_step (db : DB) (c : UpdateCall) (h : nonNegUsers db = true) :
    nonNegUsers (update_balance db c.growid c.wl c.dl c.bgl c.details c.ty).2 = true := by
  rcases update_balance_state_cases db c.growid c.wl c.dl c.bgl c.details c.ty with
    heq | ⟨nw, nd, ng, row, na, hw, hd, hg, heq⟩
  · rw [heq]; exact h
  · rw [heq]; exact nonNegUsers_writeBalance db c.growid nw nd ng row na h hw hd hg

/-- C3: starting from any store whose user rows are all non-negative (a
freshly registered user starts at zero), after every sequence of
`update_balance` calls every stored denomination field of every user is
still non-negative — each call either fails leaving the balance unchanged or
writes per-denomination values computed as `max(0, current + delta)`
(`update_balance_state_cases`). -/
theorem update_balance_nonneg_invariant (db : DB) (cs : List UpdateCall)
    (h : nonNegUsers db = true) :
    nonNegUsers (applyCalls db cs) = true := by
  induction cs generalizing db with
  | nil => exact h
  | cons c cs ih => exact ih _ (nonNeg_step db c h)

/-- Witness for C3: a debit then a deposit on a freshly seeded store keep
all stored denominations non-negative. -/
theorem update_balance_nonneg_invariant_witness :
    nonNegUsers dbIns = true ∧
    nonNegUsers (applyCalls dbIns
      [⟨"A", -2, 0, 0, "w", "withdrawal"⟩, ⟨"A", 100, 0, 0, "d", "deposit"⟩,
       ⟨"A", -1000, 0, 0, "w", "withdrawal"⟩]) = true :=
  ⟨by decide,
   update_balance_nonneg_invariant dbIns
     [⟨"A", -2, 0, 0, "w", "withdrawal"⟩, ⟨"A", 100, 0, 0, "d", "deposit"⟩,
      ⟨"A", -1000, 0, 0, "w", "withdrawal"⟩] (by decide)⟩

/-- C5: `update_stock_status` (the bulk conditional update of
`cache_manager.py`) only touches stock rows that are currently `available`
and belong to the product; when the affected-row count differs from the
requested id count the whole update is rolled back, returning an error and
leaving every row in its prior status; on success every requested id named a
distinct previously-available row of the product, exactly
`len(stock_ids)` rows matched, each now carries the new status and buyer,
and all other rows are untouched (`stockUpdateSpec`). -/
theorem update_stock_status_atomic (db : DB) (pc : String) (ids : List Nat)
    (st : String) (buyer : Option String)
    (hrows : (db.stock.map StockRow.sid).Nodup) :
    stockUpdateSpec db pc ids st buyer := by
  unfold stockUpdateSpec update_stock_status
  by_cases h0 : ids = []
  · subst h0
    simp only [if_pos rfl]
    exact ⟨fun _ => rfl, fun habs => by simp [PMResp.isSuccess] at habs⟩
  · rw [if_neg h0]
    simp only
    by_cases hcnt : (db.stock.filter (stockMatch pc ids)).length ≠ ids.length
    · rw [if_pos hcnt]
      exact ⟨fun _ => rfl, fun habs => by simp [PMResp.isSuccess] at habs⟩
    · rw [if_neg hcnt]
      push_neg at hcnt
      refine ⟨fun habs => by simp [PMResp.isSuccess] at habs, fun _ => ⟨hcnt, ?_, ?_⟩⟩
      · intro s hs
        set M := db.stock.filter (stockMatch pc ids) with hM
        have hsubl : (M.map StockRow.sid).Sublist (db.stock.map StockRow.sid) :=
          (List.filter_sublist _).map _
        have hnodup : (M.map StockRow.sid).Nodup := hrows.sublist hsubl
        have hsubset : (M.map StockRow.sid).toFinset ⊆ ids.toFinset := by
          intro v hv
          rw [List.mem_toFinset] at hv ⊢
          rcases List.mem_map.1 hv with ⟨row, hrowM, rfl⟩
          have hmt := (List.mem_filter.1 hrowM).2
          unfold stockMatch at hmt
          simp only [Bool.and_eq_true, beq_iff_eq] at hmt
          simpa using hmt.1.1
        have hcard : ids.toFinset.card ≤ (M.map StockRow.sid).toFinset.card := by
          rw [List.toFinset_card_of_nodup hnodup, List.length_map, hcnt]
          exact List.toFinset_card_le ids
        have hfeq : (M.map StockRow.sid).toFinset = ids.toFinset :=
          Finset.eq_of_subset_of_card_le hsubset hcard
        have hsmem : s ∈ M.map StockRow.sid := by
          have h1 : s ∈ ids.toFinset := List.mem_toFinset.2 hs
          rw [← hfeq, List.mem_toFinset] at h1
          exact h1
        rcases List.mem_map.1 hsmem with ⟨row, hrowM, rfl⟩
        have hmem := List.mem_filter.1 hrowM
        have hmt := hmem.2
        have hmt2 := hmem.2
        unfold stockMatch at hmt2
        simp only [Bool.and_eq_true, beq_iff_eq] at hmt2
        refine ⟨row, hmem.1, rfl, hmt2.1.2, hmt2.2, ?_⟩
        exact List.mem_map.2 ⟨row, hmem.1, by rw [if_pos hmt]⟩
      · intro row hrow hfalse
        exact List.mem_map.2 ⟨row, hrow, by rw [if_neg (by simp [hfalse])]⟩

/-- Witness for C5: selling stock items 1 and 2 of `SWORD` in the purchase
scenario store. -/
theorem update_stock_status_atomic_witness :
    (dbPurchase.stock.map StockRow.sid).Nodup ∧
    stockUpdateSpec dbPurchase "SWORD" [1, 2] "sold" (some "123") :=
  ⟨by decide, update_stock_status_atomic dbPurchase "SWORD" [1, 2] "sold" (some "123")
    (by decide)⟩

/- Helper lemmas for the transfer-compensation claim -/

lemma sucResp_balance_update (d : RespData) :
    sucResp d "BALANCE_UPDATE" = .ok (.success d "✅ Balance berhasil diupdate!") := rfl

lemma errResp_locked_exn :
    errResp "BALANCE_LOCKED" = .exn (.keyError "BALANCE_LOCKED") := rfl

lemma errResp_daily_exn :
    errResp "DAILY_LIMIT_EXCEEDED" = .exn (.keyError "DAILY_LIMIT_EXCEEDED") := rfl

lemma errResp_trx_failed :
    errResp "TRANSACTION_FAILED" = .ok (.error "❌ Transaksi gagal!") := rfl

lemma errResp_not_found :
    errResp "BALANCE_NOT_FOUND" = .ok (.error "❌ Balance tidak ditemukan!") := rfl

/-- An error-valued `update_balance` result leaves the store unchanged. -/
lemma update_balance_error_db {db : DB} {g : String} {wl dl bgl : Int} {d ty e : String}
    {db' : DB} (h : update_balance db g wl dl bgl d ty = (.ok (.error e), db')) :
    db' = db := by
  unfold update_balance at h
  simp only at h
  repeat' split at h
  all_goals
    first
      | exact ((Prod.ext_iff).1 h).2.symm
      | (rw [sucResp_balance_update] at h; simp at h)

set_option maxHeartbeats 1000000 in
/-- Inversion of a successful `update_balance`: the account row exists, the
per-denomination insufficiency checks passed, and the resulting store is the
committed `writeBalance`. -/
lemma update_balance_success_inv {db : DB} {g : String} {wl dl bgl : Int}
    {d ty : String} {dat : RespData} {m : String} {db' : DB}
    (h : update_balance db g wl dl bgl d ty = (.ok (.success dat m), db')) :
    ∃ u, lookupKey db.users g = some u ∧
      dat = .bal (candBalance u wl dl bgl) ∧
      (wl < 0 → |wl| ≤ (clampedCur u).wl) ∧
      (dl < 0 → |dl| ≤ (clampedCur u).dl) ∧
      (bgl < 0 → |bgl| ≤ (clampedCur u).bgl) ∧
      db' = writeBalance db g
        (max 0 ((clampedCur u).wl + wl)) (max 0 ((clampedCur u).dl + dl))
        (max 0 ((clampedCur u).bgl + bgl))
        ⟨g, ty, d, (clampedCur u).format, (candBalance u wl dl bgl).format,
          amountOf wl dl bgl, db.today⟩
        (decide (ty ≠ "admin_add")) := by
  unfold update_balance at h
  simp only at h
  repeat' split at h
  all_goals simp only [Prod.mk.injEq] at h
  all_goals try (rw [errResp_locked_exn] at h; simp at h)
  all_goals try (rw [errResp_daily_exn] at h; simp at h)
  all_goals try (rw [errResp_trx_failed] at h; simp at h)
  all_goals try (rw [errResp_invalid] at h; simp at h)
  all_goals try (rw [errResp_insufficient] at h; simp at h)
  all_goals try (exact absurd h.1 (by simp))
  rename_i hnl hnd x msg dd cur heq hval hw1 hd1 hg1
  rw [sucResp_balance_update] at h
  obtain ⟨hfst, hsnd⟩ := h
  simp only [PyResult.ok.injEq, BalanceResp.success.injEq] at hfst
  unfold get_balance at heq
  rw [if_neg hnl] at heq
  split at heq
  · rename_i u hu
    simp only [PyResult.ok.injEq, BalanceResp.success.injEq, RespData.bal.injEq] at heq
    obtain ⟨hcur, -⟩ := heq
    subst hcur
    push_neg at hw1 hd1 hg1
    exact ⟨u, hu, hfst.1.symm, hw1, hd1, hg1, hsnd.symm⟩
  · rw [errResp_not_found] at heq
    simp at heq

lemma lookupKey_mem {α : Type} {l : List (String × α)} {k : String} {v : α}
    (h : lookupKey l k = some v) : (k, v) ∈ l := by
  induction l with
  | nil => simp [lookupKey] at h
  | cons p rest ih =>
    unfold lookupKey at h
    by_cases hp : p.1 = k
    · rw [if_pos hp] at h
      injection h with h
      have hpv : p = (k, v) := by cases p; simp_all
      rw [← hpv]
      exact List.mem_cons_self p rest
    · rw [if_neg hp] at h
      exact List.mem_cons_of_mem _ (ih h)

lemma nonNeg_of_lookup {db : DB} {g : String} {u : UserRow}
    (hwf : nonNegUsers db = true) (h : lookupKey db.users g = some u) :
    0 ≤ u.balance_wl ∧ 0 ≤ u.balance_dl ∧ 0 ≤ u.balance_bgl := by
  have hm := lookupKey_mem h
  unfold nonNegUsers at hwf
  rw [List.all_eq_true] at hwf
  have hp := hwf _ hm
  simp only [Bool.and_eq_true, decide_eq_true_eq] at hp
  exact ⟨hp.1.1, hp.1.2, hp.2⟩

lemma lookupKey_update_list {l : List (String × UserRow)} {g : String} {u : UserRow}
    (nw nd ng : Int) (h : lookupKey l g = some u) :
    lookupKey (l.map (fun p => if p.1 = g then
        (p.1, { p.2 with balance_wl := nw, balance_dl := nd, balance_bgl := ng }) else p)) g =
      some { u with balance_wl := nw, balance_dl := nd, balance_bgl := ng } := by
  induction l with
  | nil => simp [lookupKey] at h
  | cons p rest ih =>
    unfold lookupKey at h
    by_cases hp : p.1 = g
    · rw [if_pos hp] at h
      injection h with h
      subst h
      simp [lookupKey, hp]
    · rw [if_neg hp] at h
      simp only [List.map_cons, if_neg hp]
      unfold lookupKey
      simp only [if_neg hp]
      exact ih h

lemma lookupKey_writeBalance {db : DB} {g : String} {u : UserRow}
    (nw nd ng : Int) (row : TransactionRow) (na : Bool)
    (h : lookupKey db.users g = some u) :
    lookupKey (writeBalance db g nw nd ng row na).users g =
      some { u with balance_wl := nw, balance_dl := nd, balance_bgl := ng } := by
  unfold writeBalance
  exact lookupKey_update_list nw nd ng h

lemma rollbackCount_writeBalance (db : DB) (g : String) (nw nd ng : Int)
    (row : TransactionRow) (na : Bool) (g' : String) :
    rollbackCount (writeBalance db g nw nd ng row na) g' =
      rollbackCount db g' +
        (if (row.growid == g' && row.ttype == "transfer_rollback") = true then 1 else 0) := by
  unfold rollbackCount writeBalance
  simp only [List.filter_append, List.length_append]
  congr 1
  split <;> rename_i hx <;> simp [List.filter, hx]

/-- C4 (amended): whenever a `transfer_balance` run debits the sender
successfully, the receiver credit fails with an error response, and the
compensating `transfer_rollback` credit itself succeeds, the call returns
the receiver-side error, the sender's stored balance is restored exactly to
its pre-transfer value, and one extra `transfer_rollback` transaction row
for the sender exists (store well-formedness: non-negative balances). -/
theorem transfer_compensation_restores (db : DB) (s r : String) (a : Int)
    (d1 : RespData) (m1 : String) (db1 : DB) (e2 : String) (db2 : DB)
    (d3 : RespData) (m3 : String) (db3 : DB)
    (hsr : s ≠ r) (ha : 0 < a)
    (hls : is_balance_locked db s = false) (hlr : is_balance_locked db r = false)
    (hwf : nonNegUsers db = true)
    (h1 : update_balance db s (-a) 0 0 ("Transfer to " ++ r) "transfer_out" =
      (.ok (.success d1 m1), db1))
    (h2 : update_balance db1 r a 0 0 ("Transfer from " ++ s) "transfer_in" =
      (.ok (.error e2), db2))
    (h3 : update_balance db2 s a 0 0 ("Rollback transfer to " ++ r) "transfer_rollback" =
      (.ok (.success d3 m3), db3)) :
    transfer_balance db s r a = (.ok (.error e2), db3) ∧
    lookupKey db3.users s = lookupKey db.users s ∧
    rollbackCount db3 s = rollbackCount db s + 1 := by
  have hdb2 : db2 = db1 := update_balance_error_db h2
  obtain ⟨u, hu, -, hwneg, -, -, hdb1⟩ := update_balance_success_inv h1
  obtain ⟨hu0w, hu0d, hu0g⟩ := nonNeg_of_lookup hwf hu
  have hcw : (clampedCur u).wl = u.balance_wl := by
    unfold clampedCur Balance.init; simp only; omega
  have hcd : (clampedCur u).dl = u.balance_dl := by
    unfold clampedCur Balance.init; simp only; omega
  have hcg : (clampedCur u).bgl = u.balance_bgl := by
    unfold clampedCur Balance.init; simp only; omega
  have hale : a ≤ u.balance_wl := by
    have hx := hwneg (by omega)
    rw [abs_neg, abs_of_pos ha, hcw] at hx
    exact hx
  have e1 : max 0 ((clampedCur u).wl + -a) = u.balance_wl - a := by rw [hcw]; omega
  have e2d : max 0 ((clampedCur u).dl + 0) = u.balance_dl := by rw [hcd]; omega
  have e3 : max 0 ((clampedCur u).bgl + 0) = u.balance_bgl := by rw [hcg]; omega
  have hu1 : lookupKey db1.users s =
      some { u with balance_wl := u.balance_wl - a, balance_dl := u.balance_dl,
                    balance_bgl := u.balance_bgl } := by
    rw [hdb1, e1, e2d, e3]
    exact lookupKey_writeBalance _ _ _ _ _ hu
  obtain ⟨u2, hu2, -, -, -, -, hdb3⟩ := update_balance_success_inv h3
  have hu2keep := hu2
  rw [hdb2, hu1] at hu2
  injection hu2 with hu2eq
  have hw2 : u2.balance_wl = u.balance_wl - a := by rw [← hu2eq]
  have hd2v : u2.balance_dl = u.balance_dl := by rw [← hu2eq]
  have hg2v : u2.balance_bgl = u.balance_bgl := by rw [← hu2eq]
  have e4 : max 0 ((clampedCur u2).wl + a) = u.balance_wl := by
    unfold clampedCur Balance.init; simp only; rw [hw2]; omega
  have e5 : max 0 ((clampedCur u2).dl + 0) = u.balance_dl := by
    unfold clampedCur Balance.init; simp only; rw [hd2v]; omega
  have e6 : max 0 ((clampedCur u2).bgl + 0) = u.balance_bgl := by
    unfold clampedCur Balance.init; simp only; rw [hg2v]; omega
  have hrec :
      ({ u2 with balance_wl := u.balance_wl, balance_dl := u.balance_dl, balance_bgl := u.balance_bgl } : UserRow) = u := by
    rw [← hu2eq]
  have hu3 : lookupKey db3.users s = some u := by
    rw [hdb3, e4, e5, e6, lookupKey_writeBalance _ _ _ _ _ hu2keep, hrec]
  refine ⟨?_, ?_, ?_⟩
  · unfold transfer_balance
    rw [if_neg hsr, if_neg (show ¬a ≤ 0 by omega), hls, hlr]
    simp only [Bool.false_eq_true, if_false]
    rw [h1]
    simp only
    rw [h2]
    simp only
    rw [h3]
  · rw [hu3, hu]
  · have hr3 : rollbackCount db3 s = rollbackCount db2 s + 1 := by
      rw [hdb3, rollbackCount_writeBalance]
      simp
    have hr1 : rollbackCount db1 s = rollbackCount db s := by
      rw [hdb1, rollbackCount_writeBalance]
      have hne : (("transfer_out" : String) == "transfer_rollback") = false := by decide
      simp [hne]
    rw [hr3, hdb2, hr1]

/-- Witness for C4 (amended): sender `S` (100 WL) transfers 50 WL to the
unregistered `R`; the credit fails with `BALANCE_NOT_FOUND`, the rollback
succeeds, and the sender is restored. -/
theorem transfer_compensation_restores_witness :
    (("S" : String) ≠ "R" ∧ (0 : Int) < 50 ∧
     is_balance_locked dbXferW "S" = false ∧ is_balance_locked dbXferW "R" = false ∧
     nonNegUsers dbXferW = true ∧
     update_balance dbXferW "S" (-50) 0 0 ("Transfer to " ++ "R") "transfer_out" =
       (.ok (.success (.bal ⟨50, 0, 0⟩) "✅ Balance berhasil diupdate!"), dbXferW1) ∧
     update_balance dbXferW1 "R" 50 0 0 ("Transfer from " ++ "S") "transfer_in" =
       (.ok (.error "❌ Balance tidak ditemukan!"), dbXferW1) ∧
     update_balance dbXferW1 "S" 50 0 0 ("Rollback transfer to " ++ "R") "transfer_rollback" =
       (.ok (.success (.bal ⟨100, 0, 0⟩) "✅ Balance berhasil diupdate!"), dbXferW3)) ∧
    (transfer_balance dbXferW "S" "R" 50 = (.ok (.error "❌ Balance tidak ditemukan!"), dbXferW3) ∧
     lookupKey dbXferW3.users "S" = lookupKey dbXferW.users "S" ∧
     rollbackCount dbXferW3 "S" = rollbackCount dbXferW "S" + 1) :=
  ⟨⟨by decide, by decide, by decide, by decide, by decide, by decide, by decide, by decide⟩,
   transfer_compensation_restores dbXferW "S" "R" 50
     (.bal ⟨50, 0, 0⟩) "✅ Balance berhasil diupdate!" dbXferW1
     "❌ Balance tidak ditemukan!" dbXferW1
     (.bal ⟨100, 0, 0⟩) "✅ Balance berhasil diupdate!" dbXferW3
     (by decide) (by decide) (by decide) (by decide) (by decide)
     (by decide) (by decide) (by decide)⟩

/- Helper lemmas for the formatting round-trip claim -/

lemma decDigitsAux_lt : ∀ fuel n d, d ∈ decDigitsAux fuel n → d < 10 := by
  intro fuel
  induction fuel with
  | zero => intro n d h; cases n <;> simp [decDigitsAux] at h
  | succ f ih =>
    intro n d h
    cases n with
    | zero => simp [decDigitsAux] at h
    | succ m =>
      unfold decDigitsAux at h
      rcases List.mem_cons.1 h with h | h
      · subst h; omega
      · exact ih _ _ h

lemma decChars_mem {n : Nat} {c : Char} (h : c ∈ decChars n) :
    ∃ d, d < 10 ∧ c = dChar d := by
  unfold decChars at h
  split at h
  · simp at h
    exact ⟨0, by omega, by simp [h, dChar]⟩
  · rw [List.mem_reverse] at h
    rcases List.mem_map.1 h with ⟨d, hd, rfl⟩
    exact ⟨d, decDigitsAux_lt _ _ _ hd, rfl⟩

lemma decChars_spec {n : Nat} {c : Char} (h : c ∈ decChars n) :
    c.isDigit = true ∧ c.isWhitespace = false ∧ c ≠ ',' ∧ c ≠ ' ' ∧ c ≠ 'W' ∧
    c ≠ 'D' ∧ c ≠ 'B' ∧ c ≠ 'G' ∧ c ≠ 'L' ∧ c ≠ '-' ∧ c ≠ '+' := by
  rcases decChars_mem h with ⟨d, hd, rfl⟩
  interval_cases d <;> exact ⟨rfl, rfl, by decide, by decide, by decide, by decide,
    by decide, by decide, by decide, by decide, by decide⟩

lemma decChars_cons (n : Nat) : ∃ c cs, decChars n = c :: cs := by
  unfold decChars
  split
  · exact ⟨'0', [], rfl⟩
  · rename_i hn
    cases hf : ((decDigitsAux n n).map dChar).reverse with
    | nil =>
      exfalso
      cases n with
      | zero => exact hn rfl
      | succ m =>
        rw [List.reverse_eq_nil_iff, List.map_eq_nil_iff] at hf
        unfold decDigitsAux at hf
        cases hf
    | cons c cs => exact ⟨c, cs, rfl⟩

lemma digitVal_dChar {d : Nat} (h : d < 10) : digitVal (dChar d) = d := by
  interval_cases d <;> decide

lemma parseDigits_append (xs : List Char) (c : Char) :
    parseDigits (xs ++ [c]) = parseDigits xs * 10 + digitVal c := by
  unfold parseDigits
  rw [List.foldl_append]
  rfl

lemma parse_decDigitsAux : ∀ fuel n, n ≤ fuel →
    parseDigits (((decDigitsAux fuel n).map dChar).reverse) = n := by
  intro fuel
  induction fuel with
  | zero =>
    intro n hn
    interval_cases n
    simp [decDigitsAux, parseDigits]
  | succ f ih =>
    intro n hn
    cases n with
    | zero => simp [decDigitsAux, parseDigits]
    | succ m =>
      unfold decDigitsAux
      rw [List.map_cons, List.reverse_cons, parseDigits_append,
        digitVal_dChar (by omega), ih ((m + 1) / 10) (by omega)]
      omega

lemma parseDigits_decChars (n : Nat) : parseDigits (decChars n) = n := by
  unfold decChars
  split
  · rename_i h; subst h; decide
  · exact parse_decDigitsAux n n le_rfl

lemma decDigitsAux_length : ∀ k fuel n, n ≤ fuel → n < 10 ^ k →
    (decDigitsAux fuel n).length ≤ k := by
  intro k
  induction k with
  | zero =>
    intro fuel n hf hk
    interval_cases n
    cases fuel <;> simp [decDigitsAux]
  | succ k ih =>
    intro fuel n hf hk
    cases n with
    | zero => cases fuel <;> simp [decDigitsAux]
    | succ m =>
      cases fuel with
      | zero => omega
      | succ f =>
        unfold decDigitsAux
        rw [List.length_cons]
        have hdiv : (m + 1) / 10 < 10 ^ k := by
          rw [Nat.div_lt_iff_lt_mul (by omega)]
          rw [pow_succ] at hk
          omega
        have := ih f ((m + 1) / 10) (by omega) hdiv
        omega

lemma withCommas_short {l : List Char} (h : l.length ≤ 3) : withCommas l = l := by
  match l with
  | [] => rfl
  | [a] => rfl
  | [a, b] => rfl
  | [a, b, c] => rfl
  | a :: b :: c :: d :: rest => simp at h

lemma commaChars_eq_decChars {n : Nat} (h : n ≤ 999) : commaChars n = decChars n := by
  unfold commaChars decChars
  split
  · rfl
  · rw [withCommas_short]
    rw [List.length_map]
    exact decDigitsAux_length 3 n n le_rfl (by omega)

lemma stripWS_cons_space (s : List Char) : stripWS (' ' :: s) = stripWS s := by
  unfold stripWS
  simp [List.dropWhile]

lemma stripWS_eq_self {s : List Char}
    (h1 : ∀ c, s.head? = some c → c.isWhitespace = false)
    (h2 : ∀ c, s.getLast? = some c → c.isWhitespace = false) : stripWS s = s := by
  unfold stripWS
  cases s with
  | nil => rfl
  | cons a l =>
    rw [List.dropWhile_cons_of_neg (by simp [h1 a rfl])]
    cases hrev : (a :: l).reverse with
    | nil => simp at hrev
    | cons b t =>
      have hb : (a :: l).getLast? = some b := by
        rw [← List.head?_reverse, hrev]; rfl
      rw [List.dropWhile_cons_of_neg (by simp [h2 b hb])]
      rw [← hrev, List.reverse_reverse]

lemma splitC_no_comma {s : List Char} (h : ∀ c ∈ s, c ≠ ',') : splitC s = [s] := by
  induction s with
  | nil => rfl
  | cons c rest ih =>
    unfold splitC
    rw [if_neg (h c (List.mem_cons_self c rest))]
    rw [ih (fun x hx => h x (List.mem_cons_of_mem _ hx))]

lemma splitC_append_comma {xs ys : List Char} (h : ∀ c ∈ xs, c ≠ ',') :
    splitC (xs ++ ',' :: ys) = xs :: splitC ys := by
  induction xs with
  | nil => rfl
  | cons c rest ih =>
    rw [List.cons_append]
    conv_lhs => rw [splitC]
    rw [if_neg (h c (List.mem_cons_self c rest))]
    rw [ih (fun x hx => h x (List.mem_cons_of_mem _ hx))]

lemma begins_self_append (pat ys : List Char) : begins pat (pat ++ ys) = true := by
  induction pat with
  | nil => rfl
  | cons p ps ih => simp [begins, ih]

lemma hasSub_suffix (pat xs : List Char) : hasSub pat (xs ++ pat) = true := by
  induction xs with
  | nil =>
    cases pat with
    | nil => rfl
    | cons p ps =>
      unfold hasSub
      rw [List.nil_append]
      have := begins_self_append (p :: ps) []
      rw [List.append_nil] at this
      simp [this]
  | cons c rest ih =>
    cases hx : rest ++ pat with
    | nil =>
      rw [List.cons_append, hx]
      rw [hx] at ih
      unfold hasSub
      simp only [Bool.or_eq_true]
      right
      exact ih
    | cons y ys =>
      rw [List.cons_append, hx]
      rw [hx] at ih
      unfold hasSub
      simp [ih]

lemma hasSub_head_not {p0 : Char} {ps s : List Char} (h : ∀ c ∈ s, c ≠ p0) :
    hasSub (p0 :: ps) s = false := by
  induction s with
  | nil => rfl
  | cons c rest ih =>
    unfold hasSub
    have hc : (p0 == c) = false := by
      have := h c (List.mem_cons_self c rest)
      simp [beq_iff_eq]
      exact fun hx => this hx.symm
    simp only [begins, hc, Bool.false_and, Bool.false_or]
    exact ih (fun x hx => h x (List.mem_cons_of_mem _ hx))

lemma removeSubAux_marker {p0 : Char} {ps xs : List Char} :
    ∀ fuel, (xs ++ p0 :: ps).length ≤ fuel → (∀ c ∈ xs, c ≠ p0) →
    removeSubAux fuel (p0 :: ps) (xs ++ p0 :: ps) = xs := by
  induction xs with
  | nil =>
    intro fuel hf hx
    simp only [List.nil_append] at hf ⊢
    cases fuel with
    | zero => simp at hf
    | succ f =>
      unfold removeSubAux
      rw [if_pos ⟨by simp, by
        have := begins_self_append (p0 :: ps) []
        rw [List.append_nil] at this
        exact this⟩]
      simp only [List.length_cons, Nat.add_sub_cancel, List.drop_length]
      cases f <;> rfl
  | cons c rest ih =>
    intro fuel hf hx
    cases fuel with
    | zero => simp at hf
    | succ f =>
      rw [List.cons_append]
      unfold removeSubAux
      rw [if_neg]
      · rw [ih f (by simp at hf ⊢; omega) (fun x hxm => hx x (List.mem_cons_of_mem _ hxm))]
      · rintro ⟨-, hbeg⟩
        unfold begins at hbeg
        have : (p0 == c) = false := by
          have := hx c (List.mem_cons_self c rest)
          simp [beq_iff_eq]
          exact fun hy => this hy.symm
        simp [this] at hbeg

lemma strip_decChars_append {n : Nat} {m : List Char} (hm : m ≠ [])
    (hlast : ∀ c, m.getLast? = some c → c.isWhitespace = false) :
    stripWS (decChars n ++ m) = decChars n ++ m := by
  apply stripWS_eq_self
  · intro c hc
    obtain ⟨c0, cs, hd⟩ := decChars_cons n
    rw [hd, List.cons_append] at hc
    simp only [List.head?_cons, Option.some.injEq] at hc
    subst hc
    exact (decChars_spec (hd ▸ List.mem_cons_self c0 cs)).2.1
  · intro c hc
    rw [List.getLast?_append_of_ne_nil _ hm] at hc
    exact hlast c hc

lemma strip_decChars_space {n : Nat} :
    stripWS (decChars n ++ [' ']) = decChars n := by
  obtain ⟨c0, cs, hd⟩ := decChars_cons n
  unfold stripWS
  rw [hd, List.cons_append,
    List.dropWhile_cons_of_neg (by
      simp [(decChars_spec (hd ▸ List.mem_cons_self c0 cs)).2.1])]
  rw [← List.cons_append, ← hd]
  rw [List.reverse_append]
  simp only [List.reverse_cons, List.reverse_nil, List.nil_append, List.singleton_append]
  rw [List.dropWhile_cons_of_pos (by decide)]
  cases hrev : (decChars n).reverse with
  | nil =>
    rw [hd] at hrev
    simp at hrev
  | cons b t =>
    have hb : b ∈ decChars n := by
      rw [← List.mem_reverse, hrev]
      exact List.mem_cons_self b t
    rw [List.dropWhile_cons_of_neg (by simp [(decChars_spec hb).2.1])]
    rw [← hrev, List.reverse_reverse]

lemma pyInt_decChars (n : Nat) : pyInt (decChars n) = some (n : Int) := by
  obtain ⟨c0, cs, hd⟩ := decChars_cons n
  have hc0 := decChars_spec (hd ▸ List.mem_cons_self c0 cs)
  have hstrip : stripWS (decChars n) = decChars n := by
    apply stripWS_eq_self
    · intro c hc
      rw [hd] at hc
      simp only [List.head?_cons, Option.some.injEq] at hc
      subst hc
      exact hc0.2.1
    · intro c hc
      have : c ∈ decChars n := by
        rcases List.mem_of_mem_getLast? hc with h
        exact h
      exact (decChars_spec this).2.1
  unfold pyInt
  simp only [hstrip]
  rw [if_neg (by rw [hd]; simp; intro h; exact hc0.2.2.2.2.2.2.2.2.2.1 h)]
  rw [if_neg (by rw [hd]; simp; intro h; exact hc0.2.2.2.2.2.2.2.2.2.2 h)]
  rw [if_pos ⟨by rw [hd]; simp, by
    rw [List.all_eq_true]
    exact fun c hc => (decChars_spec hc).1⟩]
  rw [parseDigits_decChars]

lemma procPart_space (acc : ParseAcc) (part : List Char) :
    procPart acc (' ' :: part) = procPart acc part := by
  unfold procPart
  rw [stripWS_cons_space]

lemma procPart_wl (acc : ParseAcc) (n : Nat) :
    procPart acc (decChars n ++ [' ', 'W', 'L']) = some { acc with wl := (n : Int) } := by
  unfold procPart
  rw [strip_decChars_append (by decide) (by intro c hc; simp at hc; subst hc; decide)]
  simp only
  have hassoc : decChars n ++ [' ', 'W', 'L'] = (decChars n ++ [' ']) ++ ['W', 'L'] := by
    simp
  rw [hassoc, hasSub_suffix ['W', 'L'] (decChars n ++ [' '])]
  rw [if_pos rfl]
  have hrm : removeSub ['W', 'L'] ((decChars n ++ [' ']) ++ ['W', 'L']) =
      decChars n ++ [' '] := by
    unfold removeSub
    exact removeSubAux_marker _ le_rfl (by
      intro c hc
      rcases List.mem_append.1 hc with h | h
      · exact (decChars_spec h).2.2.2.2.1
      · simp at h; subst h; decide)
  rw [hrm, strip_decChars_space, pyInt_decChars]
  rfl

lemma procPart_dl (acc : ParseAcc) (n : Nat) :
    procPart acc (decChars n ++ [' ', 'D', 'L']) = some { acc with dl := (n : Int) } := by
  unfold procPart
  rw [strip_decChars_append (by decide) (by intro c hc; simp at hc; subst hc; decide)]
  simp only
  have hnoW : hasSub ['W', 'L'] (decChars n ++ [' ', 'D', 'L']) = false := by
    apply hasSub_head_not
    intro c hc
    rcases List.mem_append.1 hc with h | h
    · exact (decChars_spec h).2.2.2.2.1
    · simp at h; rcases h with h | h | h <;> subst h <;> decide
  rw [hnoW]
  simp only [Bool.false_eq_true, if_false]
  have hassoc : decChars n ++ [' ', 'D', 'L'] = (decChars n ++ [' ']) ++ ['D', 'L'] := by
    simp
  rw [hassoc, hasSub_suffix ['D', 'L'] (decChars n ++ [' '])]
  rw [if_pos rfl]
  have hrm : removeSub ['D', 'L'] ((decChars n ++ [' ']) ++ ['D', 'L']) =
      decChars n ++ [' '] := by
    unfold removeSub
    exact removeSubAux_marker _ le_rfl (by
      intro c hc
      rcases List.mem_append.1 hc with h | h
      · exact (decChars_spec h).2.2.2.2.2.1
      · simp at h; subst h; decide)
  rw [hrm, strip_decChars_space, pyInt_decChars]
  rfl

lemma procPart_bgl (acc : ParseAcc) (n : Nat) :
    procPart acc (decChars n ++ [' ', 'B', 'G', 'L']) = some { acc with bgl := (n : Int) } := by
  unfold procPart
  rw [strip_decChars_append (by decide) (by intro c hc; simp at hc; subst hc; decide)]
  simp only
  have hnoW : hasSub ['W', 'L'] (decChars n ++ [' ', 'B', 'G', 'L']) = false := by
    apply hasSub_head_not
    intro c hc
    rcases List.mem_append.1 hc with h | h
    · exact (decChars_spec h).2.2.2.2.1
    · simp at h; rcases h with h | h | h | h <;> subst h <;> decide
  have hnoD : hasSub ['D', 'L'] (decChars n ++ [' ', 'B', 'G', 'L']) = false := by
    apply hasSub_head_not
    intro c hc
    rcases List.mem_append.1 hc with h | h
    · exact (decChars_spec h).2.2.2.2.2.1
    · simp at h; rcases h with h | h | h | h <;> subst h <;> decide
  rw [hnoW]
  simp only [Bool.false_eq_true, if_false]
  rw [hnoD]
  simp only [Bool.false_eq_true, if_false]
  have hassoc : decChars n ++ [' ', 'B', 'G', 'L'] = (decChars n ++ [' ']) ++ ['B', 'G', 'L'] := by
    simp
  rw [hassoc, hasSub_suffix ['B', 'G', 'L'] (decChars n ++ [' '])]
  rw [if_pos rfl]
  have hrm : removeSub ['B', 'G', 'L'] ((decChars n ++ [' ']) ++ ['B', 'G', 'L']) =
      decChars n ++ [' '] := by
    unfold removeSub
    exact removeSubAux_marker _ le_rfl (by
      intro c hc
      rcases List.mem_append.1 hc with h | h
      · exact (decChars_spec h).2.2.2.2.2.2.1
      · simp at h; subst h; decide)
  rw [hrm, strip_decChars_space, pyInt_decChars]
  rfl

lemma part_no_comma {n : Nat} {m : List Char} (hm : ∀ c ∈ m, c ≠ ',') :
    ∀ c ∈ decChars n ++ m, c ≠ ',' := by
  intro c hc
  rcases List.mem_append.1 hc with h | h
  · exact (decChars_spec h).2.2.1
  · exact hm c h

lemma splitC_join2 {p q : List Char} (hp : ∀ c ∈ p, c ≠ ',') (hq : ∀ c ∈ q, c ≠ ',') :
    splitC (joinSep [',', ' '] [p, q]) = [p, ' ' :: q] := by
  show splitC (p ++ [',', ' '] ++ joinSep [',', ' '] [q]) = _
  have h1 : p ++ [',', ' '] ++ joinSep [',', ' '] [q] = p ++ ',' :: (' ' :: q) := by
    show p ++ [',', ' '] ++ q = _
    simp
  rw [h1, splitC_append_comma hp]
  rw [splitC_no_comma (by intro c hc; rcases List.mem_cons.1 hc with h | h
                          · subst h; decide
                          · exact hq c h)]

lemma splitC_join3 {p q r : List Char} (hp : ∀ c ∈ p, c ≠ ',') (hq : ∀ c ∈ q, c ≠ ',')
    (hr : ∀ c ∈ r, c ≠ ',') :
    splitC (joinSep [',', ' '] [p, q, r]) = [p, ' ' :: q, ' ' :: r] := by
  show splitC (p ++ [',', ' '] ++ (q ++ [',', ' '] ++ joinSep [',', ' '] [r])) = _
  have h1 : p ++ [',', ' '] ++ (q ++ [',', ' '] ++ joinSep [',', ' '] [r]) =
      p ++ ',' :: (' ' :: q ++ ',' :: (' ' :: r)) := by
    show p ++ [',', ' '] ++ (q ++ [',', ' '] ++ r) = _
    simp
  rw [h1, splitC_append_comma hp]
  rw [splitC_append_comma (by intro c hc; rcases List.mem_cons.1 hc with h | h
                              · subst h; decide
                              · exact hq c h)]
  rw [splitC_no_comma (by intro c hc; rcases List.mem_cons.1 hc with h | h
                          · subst h; decide
                          · exact hr c h)]

/-- C8 (amended): for every valid `Balance` (non-negative fields) in which
each denomination field is at most 999 — so that no thousands separator is
emitted — `Balance.from_string (b.format)` has the same WL-equivalent total
as `b`. -/
theorem balance_roundtrip_small_fields (w d g : Int) (hw0 : 0 ≤ w) (hw : w ≤ 999) (hd0 : 0 ≤ d)
    (hd999 : d ≤ 999) (hg0 : 0 ≤ g) (hg999 : g ≤ 999) :
    (Balance.from_string (Balance.init w d g).format).total_wl =
      (Balance.init w d g).total_wl := by
  obtain ⟨W, rfl⟩ := Int.eq_ofNat_of_zero_le hw0
  obtain ⟨D, rfl⟩ := Int.eq_ofNat_of_zero_le hd0
  obtain ⟨G, rfl⟩ := Int.eq_ofNat_of_zero_le hg0
  have hW : W ≤ 999 := by exact_mod_cast hw
  have hD : D ≤ 999 := by exact_mod_cast hd999
  have hG : G ≤ 999 := by exact_mod_cast hg999
  have hinit : Balance.init (W : Int) (D : Int) (G : Int) = ⟨(W : Int), (D : Int), (G : Int)⟩ := by
    unfold Balance.init
    rw [Balance.mk.injEq]
    refine ⟨?_, ?_, ?_⟩ <;> omega
  rw [hinit]
  show (fromChars (formatChars ⟨(W : Int), (D : Int), (G : Int)⟩)).total_wl = _
  unfold formatChars
  simp only [Int.toNat_natCast, commaChars_eq_decChars hW, commaChars_eq_decChars hD,
    commaChars_eq_decChars hG]
  rcases Nat.eq_zero_or_pos G with hG0 | hGpos
  · subst hG0
    rcases Nat.eq_zero_or_pos D with hD0 | hDpos
    · subst hD0
      rw [if_neg (by simp), if_neg (by simp)]
      simp only [List.nil_append]
      rw [if_pos (Or.inr trivial)]
      -- single WL part
      obtain ⟨c0, cs, hd⟩ := decChars_cons W
      show (fromChars (decChars W ++ [' ', 'W', 'L'])).total_wl = _
      unfold fromChars
      rw [if_neg (by rw [hd]; simp)]
      rw [splitC_no_comma (part_no_comma (by
        intro c hc; simp at hc; rcases hc with h | h | h <;> subst h <;> decide))]
      simp only [List.foldlM]
      rw [procPart_wl]
      simp only [Option.pure_def, Option.bind_eq_bind, Option.some_bind]
      unfold Balance.init Balance.total_wl
      simp only
      omega
    · rw [if_neg (by simp), if_pos (by exact_mod_cast hDpos)]
      try simp only [List.append_nil, List.nil_append, List.cons_append, List.singleton_append]
      rcases Nat.eq_zero_or_pos W with hW0 | hWpos
      · subst hW0
        rw [if_neg (by simp)]
        try simp only [List.append_nil, List.nil_append, List.cons_append, List.singleton_append]
        obtain ⟨c0, cs, hd⟩ := decChars_cons D
        show (fromChars (decChars D ++ [' ', 'D', 'L'])).total_wl = _
        unfold fromChars
        rw [if_neg (by rw [hd]; simp)]
        rw [splitC_no_comma (part_no_comma (by
          intro c hc; simp at hc; rcases hc with h | h | h <;> subst h <;> decide))]
        simp only [List.foldlM]
        rw [procPart_dl]
        simp only [Option.pure_def, Option.bind_eq_bind, Option.some_bind]
        unfold Balance.init Balance.total_wl
        simp only
        omega
      · rw [if_pos (Or.inl (by exact_mod_cast hWpos))]
        try simp only [List.append_nil, List.nil_append, List.cons_append, List.singleton_append]
        obtain ⟨c0, cs, hd⟩ := decChars_cons D
        unfold fromChars
        rw [if_neg (by simp [joinSep, hd])]
        rw [splitC_join2 (part_no_comma (by
            intro c hc; simp at hc; rcases hc with h | h | h <;> subst h <;> decide))
          (part_no_comma (by
            intro c hc; simp at hc; rcases hc with h | h | h <;> subst h <;> decide))]
        simp only [List.foldlM]
        rw [procPart_dl]
        simp only [Option.pure_def, Option.bind_eq_bind, Option.some_bind]
        rw [procPart_space, procPart_wl]
        simp only [Option.some_bind]
        unfold Balance.init Balance.total_wl
        simp only
        omega
  · rw [if_pos (by exact_mod_cast hGpos)]
    rcases Nat.eq_zero_or_pos D with hD0 | hDpos
    · subst hD0
      rw [if_neg (by simp)]
      try simp only [List.append_nil, List.nil_append, List.cons_append, List.singleton_append]
      rcases Nat.eq_zero_or_pos W with hW0 | hWpos
      · subst hW0
        rw [if_neg (by simp)]
        try simp only [List.append_nil, List.nil_append, List.cons_append, List.singleton_append]
        obtain ⟨c0, cs, hd⟩ := decChars_cons G
        show (fromChars (decChars G ++ [' ', 'B', 'G', 'L'])).total_wl = _
        unfold fromChars
        rw [if_neg (by rw [hd]; simp)]
        rw [splitC_no_comma (part_no_comma (by
          intro c hc; simp at hc; rcases hc with h | h | h | h <;> subst h <;> decide))]
        simp only [List.foldlM]
        rw [procPart_bgl]
        simp only [Option.pure_def, Option.bind_eq_bind, Option.some_bind]
        unfold Balance.init Balance.total_wl
        simp only
        omega
      · rw [if_pos (Or.inl (by exact_mod_cast hWpos))]
        try simp only [List.append_nil, List.nil_append, List.cons_append, List.singleton_append]
        obtain ⟨c0, cs, hd⟩ := decChars_cons G
        unfold fromChars
        rw [if_neg (by simp [joinSep, hd])]
        rw [splitC_join2 (part_no_comma (by
            intro c hc; simp at hc; rcases hc with h | h | h | h <;> subst h <;> decide))
          (part_no_comma (by
            intro c hc; simp at hc; rcases hc with h | h | h <;> subst h <;> decide))]
        simp only [List.foldlM]
        rw [procPart_bgl]
        simp only [Option.pure_def, Option.bind_eq_bind, Option.some_bind]
        rw [procPart_space, procPart_wl]
        simp only [Option.some_bind]
        unfold Balance.init Balance.total_wl
        simp only
        omega
    · rw [if_pos (by exact_mod_cast hDpos)]
      try simp only [List.append_nil, List.nil_append, List.cons_append, List.singleton_append]
      rcases Nat.eq_zero_or_pos W with hW0 | hWpos
      · subst hW0
        rw [if_neg (by simp)]
        try simp only [List.append_nil, List.nil_append, List.cons_append, List.singleton_append]
        obtain ⟨c0, cs, hd⟩ := decChars_cons G
        unfold fromChars
        rw [if_neg (by simp [joinSep, hd])]
        rw [splitC_join2 (part_no_comma (by
            intro c hc; simp at hc; rcases hc with h | h | h | h <;> subst h <;> decide))
          (part_no_comma (by
            intro c hc; simp at hc; rcases hc with h | h | h <;> subst h <;> decide))]
        simp only [List.foldlM]
        rw [procPart_bgl]
        simp only [Option.pure_def, Option.bind_eq_bind, Option.some_bind]
        rw [procPart_space, procPart_dl]
        simp only [Option.some_bind]
        unfold Balance.init Balance.total_wl
        simp only
        omega
      · rw [if_pos (Or.inl (by exact_mod_cast hWpos))]
        try simp only [List.append_nil, List.nil_append, List.cons_append, List.singleton_append]
        obtain ⟨c0, cs, hd⟩ := decChars_cons G
        unfold fromChars
        rw [if_neg (by simp [joinSep, hd])]
        rw [splitC_join3 (part_no_comma (by
            intro c hc; simp at hc; rcases hc with h | h | h | h <;> subst h <;> decide))
          (part_no_comma (by
            intro c hc; simp at hc; rcases hc with h | h | h <;> subst h <;> decide))
          (part_no_comma (by
            intro c hc; simp at hc; rcases hc with h | h | h <;> subst h <;> decide))]
        simp only [List.foldlM]
        rw [procPart_bgl]
        simp only [Option.pure_def, Option.bind_eq_bind, Option.some_bind]
        rw [procPart_space, procPart_dl]
        simp only [Option.some_bind]
        rw [procPart_space, procPart_wl]
        simp only [Option.some_bind]
        unfold Balance.init Balance.total_wl
        simp only
        omega

/-- Witness for C8 (amended) at the balance `(999, 1, 12)`. -/
theorem balance_roundtrip_small_fields_witness :
    ((0 : Int) ≤ 999 ∧ (999 : Int) ≤ 999 ∧ (0 : Int) ≤ 1 ∧ (1 : Int) ≤ 999 ∧
     (0 : Int) ≤ 12 ∧ (12 : Int) ≤ 999) ∧
    (Balance.from_string (Balance.init 999 1 12).format).total_wl =
      (Balance.init 999 1 12).total_wl :=
  ⟨⟨by decide, by decide, by decide, by decide, by decide, by decide⟩,
   balance_roundtrip_small_fields 999 1 12 (by decide) (by decide) (by decide)
     (by decide) (by decide) (by decide)⟩
